import Mathlib

/-!
Verification of the local natural-language query engine (`LocalAIEngine`)
of the Delphfmsprototype warehouse fleet-management dashboard.

The TypeScript source is embedded shallowly:
* the regex detectors become executable word-boundary scanners over the
  character list of the normalized query;
* the handlers become functions that return the produced
  `{message, response}` value together with the (unchanged) warehouse
  snapshot, so that the absence of snapshot mutation is an explicit
  theorem rather than a typing accident — every `Array.sort` /
  `Array.splice` of the source acts on a spread/filter/slice copy and is
  translated accordingly;
* a result of `none` models a thrown JS `TypeError` (indexing `[0]` into
  an empty array and then reading a field of `undefined`);
* the wall clock read by the scheduling handler (`new Date()`) becomes an
  explicit argument `now`, a minute counter;
* JS float arithmetic on integer quantities is modeled exactly over ℚ/ℤ
  (`Math.round (a/b)` as `⌊a/b + 1/2⌋` etc.); division by zero, which JS
  renders as `NaN`/`Infinity` inside message text without throwing, is
  modeled by the total Lean division (value 0) — no claim below inspects
  those message fragments.
-/

/-- JS `Array.prototype.sort(cmp)` restricted to the comparators of this file,
all of which are total preorders (`le a b || le b a` always holds, where
`le a b` means `cmp(a,b) <= 0`).  JS's sort is stable, and a stable sort is
unique for a total comparator, so insertion sort — stable and structurally
recursive, hence kernel-evaluable — models it exactly. -/
def List.jsSort {α : Type} (l : List α) (le : α → α → Bool) : List α :=
  List.insertionSort (fun a b => le a b = true) l

namespace Delph

/-- JS whitespace as used by `\s` and `trim` on the queries at hand. -/
def wsChar (c : Char) : Bool :=
  c == ' ' || c == '\t' || c == '\n' || c == '\r'

/-- JS word character `[A-Za-z0-9_]`, the class underlying `\b`. -/
def isWordChar (c : Char) : Bool := c.isAlphanum || c == '_'

/-- `p` is a prefix of `s`. -/
def listStartsWith : List Char → List Char → Bool
  | _, [] => true
  | [], _ :: _ => false
  | c :: s, d :: p => c == d && listStartsWith s p

/-- The regex `w\b` matches at the head of `s`: `w` is a literal prefix of
`s` and the character after it (if any) is not a word character. -/
def wordHere (s w : List Char) : Bool :=
  listStartsWith s w &&
    (match s.drop w.length with
     | [] => true
     | c :: _ => !isWordChar c)

/-- Scan of `s` for `\bw\b`; `prev` records whether the character before
the current position is a word character (the leading `\b` holds iff it
is not, every keyword starting with a word character). -/
def hasWord : List Char → List Char → Bool → Bool
  | [], _, _ => false
  | c :: s, w, prev => (!prev && wordHere (c :: s) w) || hasWord s w (isWordChar c)

/-- `re.test` for a keyword alternation `\b(w₁|w₂|…)\b`. -/
def testWords (ws : List String) (s : List Char) : Bool :=
  ws.any (fun w => hasWord s w.data false)

/-- Leftmost-match scan for a pattern beginning with `\b` + word
character: try `f` at every position whose predecessor is not a word
character. -/
def scanBound (f : List Char → Option α) : List Char → Bool → Option α
  | [], _ => none
  | c :: s, prev =>
    match (if prev then none else f (c :: s)) with
    | some a => some a
    | none => scanBound f s (isWordChar c)

/-- Leftmost-match scan for a pattern with no leading `\b`. -/
def scanAny (f : List Char → Option α) : List Char → Option α
  | [] => none
  | c :: s =>
    match f (c :: s) with
    | some a => some a
    | none => scanAny f s

/-- `parseInt` on a non-empty run of decimal digits. -/
def parseNat (ds : List Char) : Nat :=
  ds.foldl (fun a c => 10 * a + (c.toNat - 48)) 0

/-- The `\s*(\d+)\b` part of the robot-id pattern, applied to the rest
of the string after the matched keyword. -/
def numTail (r : List Char) : Option Nat :=
  if ((r.dropWhile wsChar).takeWhile Char.isDigit).isEmpty then none
  else
    match (r.dropWhile wsChar).drop ((r.dropWhile wsChar).takeWhile Char.isDigit).length with
    | [] => some (parseNat ((r.dropWhile wsChar).takeWhile Char.isDigit))
    | c :: _ =>
      if isWordChar c then none
      else some (parseNat ((r.dropWhile wsChar).takeWhile Char.isDigit))

/-- One attempt of `/\b(amr|robot)\s*(\d+)\b/i` at the head of `s`
(`s` is already lower-cased), returning the captured number. -/
def robotIdHere (s : List Char) : Option Nat :=
  if listStartsWith s "amr".data then numTail (s.drop "amr".data.length)
  else if listStartsWith s "robot".data then numTail (s.drop "robot".data.length)
  else none

/-- `query.match(robotIdPattern)`, reduced to its numeric capture. -/
def robotIdMatch (s : List Char) : Option Nat := scanBound robotIdHere s false

/-- One attempt of `/\bzone\s*([a-c])\b/i` at the head of `s`. -/
def zoneLetterHere (s : List Char) : Option Char :=
  if listStartsWith s "zone".data then
    match (s.drop 4).dropWhile wsChar with
    | [] => none
    | c :: rest =>
      if c == 'a' || c == 'b' || c == 'c' then
        match rest with
        | [] => some c
        | d :: _ => if isWordChar d then none else some c
      else none
  else none

/-- `query.match(zoneIdPattern)`, reduced to its letter capture. -/
def zoneLetterMatch (s : List Char) : Option Char := scanBound zoneLetterHere s false

/-- One attempt of `/(\d+)%/` at the head of `s`. -/
def percentHere (s : List Char) : Option Nat :=
  let ds := s.takeWhile Char.isDigit
  if ds.isEmpty then none
  else match s.drop ds.length with
    | '%' :: _ => some (parseNat ds)
    | _ => none

/-- `query.match(/(\d+)%/)`, reduced to its numeric capture. -/
def percentMatch (s : List Char) : Option Nat := scanAny percentHere s

/-- One attempt of `/(\d+)\s+(robots|amrs)/i` at the head of `s`. -/
def countRobotsHere (s : List Char) : Option Nat :=
  let ds := s.takeWhile Char.isDigit
  if ds.isEmpty then none
  else
    let r := s.drop ds.length
    let ws := r.takeWhile wsChar
    if ws.isEmpty then none
    else
      let r2 := r.drop ws.length
      if listStartsWith r2 "robots".data || listStartsWith r2 "amrs".data then
        some (parseNat ds)
      else none

/-- `query.match(/(\d+)\s+(robots|amrs)/i)`, reduced to its capture. -/
def countRobotsMatch (s : List Char) : Option Nat := scanAny countRobotsHere s

/-- JS `String.prototype.includes` over character lists. -/
def hasSubstr : List Char → List Char → Bool
  | [], p => p.isEmpty
  | c :: s, p => listStartsWith (c :: s) p || hasSubstr s p

/-- The character of a decimal digit. -/
def digitChar (k : Nat) : Char := Char.ofNat (48 + k)

/-- Fuel-based helper for `natDigits`: structural recursion so that the kernel
can evaluate it.  Any fuel above `n` yields the digits of `n`. -/
def natDigitsAux : Nat → Nat → List Char
  | 0, _ => []
  | fuel + 1, n =>
    if n < 10 then [digitChar n]
    else natDigitsAux fuel (n / 10) ++ [digitChar (n % 10)]

/-- Decimal digit characters of a natural number (JS `String(n)`). -/
def natDigits (n : Nat) : List Char := natDigitsAux (n + 1) n

/-- JS `String(n)` / `${n}` for a natural number. -/
def natStr (n : Nat) : String := String.mk (natDigits n)

/-- JS `String(i)` / `${i}` for a possibly negative integer. -/
def intStr (i : Int) : String :=
  if i < 0 then "-" ++ natStr i.natAbs else natStr i.natAbs

/-- `String(n).padStart(2, '0')`. -/
def padTwo (n : Nat) : String :=
  let ds := natDigits n
  String.mk (if ds.length < 2 then '0' :: ds else ds)

/-- `query.toLowerCase().trim()`, as a character list. -/
def normalize (q : String) : List Char :=
  let l := (q.data.map Char.toLower).dropWhile wsChar
  (l.reverse.dropWhile wsChar).reverse

/-- `s.trim()` keeping the case. -/
def strTrim (s : String) : String :=
  let l := s.data.dropWhile wsChar
  String.mk ((l.reverse.dropWhile wsChar).reverse)

/-- `s.toLowerCase()`. -/
def strLower (s : String) : String := String.mk (s.data.map Char.toLower)

/-- `s.charAt(0).toUpperCase() + s.slice(1)`. -/
def capFirst (s : String) : String :=
  match s.data with
  | [] => s
  | c :: rest => String.mk (c.toUpper :: rest)

/-- `Math.round(a / b)` for naturals (`⌊a/b + 1/2⌋`); `b = 0`, which JS
renders as `NaN`, is modeled as `0`. -/
def roundDiv (a b : Nat) : Nat := (2 * a + b) / (2 * b)

/-- `Math.round(p / q)` over the integers for `q > 0` (`⌊p/q + 1/2⌋`,
JS rounds half toward `+∞`); `q = 0` is modeled as `0`. -/
def roundRat (p q : Int) : Int := Int.fdiv (2 * p + q) (2 * q)

/-- `Math.ceil(a / b)` for naturals; `b = 0` (JS `Infinity`) modeled `0`. -/
def ceilDiv (a b : Nat) : Nat := (a + b - 1) / b

/-- JS object property assignment on a string-keyed record: insertion
order is preserved, an existing key is overwritten in place. -/
def recSetG (m : List (String × α)) (k : String) (v : α) : List (String × α) :=
  if m.any (fun p => p.1 == k) then m.map (fun p => if p.1 == k then (k, v) else p)
  else m ++ [(k, v)]

/-- Record lookup (`m[k]`), `none` for a missing key. -/
def recGetG (m : List (String × α)) (k : String) : Option α :=
  (m.find? (fun p => p.1 == k)).map (fun p => p.2)

/-- The JS object spread `{...a, ...b}`. -/
def recMerge (a b : List (String × α)) : List (String × α) :=
  b.foldl (fun m p => recSetG m p.1 p.2) a

/-- JS template interpolation of a nullable string (`null` → `"null"`). -/
def jsStr : Option String → String
  | none => "null"
  | some s => s

/-- JS truthiness of a nullable string. -/
def strTruthy : Option String → Bool
  | none => false
  | some s => !(s == "")

/-- `s.split("\n\n")` (leftmost, non-overlapping). -/
def splitNN : List Char → List Char → List String
  | [], acc => [String.mk acc.reverse]
  | '\n' :: '\n' :: s, acc => String.mk acc.reverse :: splitNN s []
  | c :: s, acc => splitNN s (c :: acc)

/-- `String.prototype.split("\n\n")`. -/
def strSplitNN (s : String) : List String := splitNN s.data []

/-! ### Data model (the fields of `@shared/types` read by the engine) -/

structure Coordinates where
  x : Nat
  y : Nat
deriving DecidableEq

structure Robot where
  id : Nat
  status : String
  zoneId : String
  batteryLevel : Nat
  currentTask : Option String
  currentTool : String
  efficiency : Nat
  coordinates : Coordinates
deriving DecidableEq

structure Zone where
  id : String
  name : String
  priority : String
  robotCount : Nat
  tasksPending : Nat
  tasksCompleted : Nat
  efficiency : Nat
  trafficDensity : String
deriving DecidableEq

structure Activity where
  id : Nat
  type : String
  iconName : String
  message : String
deriving DecidableEq

structure WarehouseOverview where
  activeRobots : Nat
  totalRobots : Nat
  tasksCompleted : Nat
  robotEfficiency : Nat
deriving DecidableEq

/-- The snapshot handed to `processQuery` (`WarehouseDataType`). -/
structure WarehouseDataType where
  robots : List Robot
  zones : List Zone
  activities : List Activity
  overview : WarehouseOverview
deriving DecidableEq

/-- `WarehouseDataManager.getRobotById`. -/
def getRobotById (d : WarehouseDataType) (id : Nat) : Option Robot :=
  d.robots.find? (fun r => r.id == id)

/-- `WarehouseDataManager.getZoneById`. -/
def getZoneById (d : WarehouseDataType) (id : String) : Option Zone :=
  d.zones.find? (fun z => z.id == id)

/-- The `data` payload of a `QueryResponse` (`null`, an entity, an entity
array, or the overview aggregate). -/
inductive RData
  | null
  | robot (r : Robot)
  | robots (rs : List Robot)
  | zone (z : Zone)
  | zones (zs : List Zone)
  | overview (o : WarehouseOverview)
deriving DecidableEq

/-- `metadata.secondaryData`: a string list or a string/number record. -/
inductive Secondary
  | strings (l : List String)
  | numRecord (l : List (String × Nat))
deriving DecidableEq

structure RespMetadata where
  comparisonType : Option String
  metricName : Option String
  chartData : Option (List (String × Nat))
  secondaryData : Option Secondary
deriving DecidableEq

/-- An empty metadata bag, to be extended field by field. -/
def md0 : RespMetadata :=
  { comparisonType := none, metricName := none, chartData := none, secondaryData := none }

structure QueryResponse where
  title : String
  data : RData
  type : String
  metadata : Option RespMetadata
deriving DecidableEq

/-- The `{message, response}` pair produced by every handler. -/
structure QueryResult where
  message : String
  response : QueryResponse
deriving DecidableEq

/-- Handler result: the produced value (`none` = thrown `TypeError`)
together with the snapshot as left behind by the handler. -/
abbrev HResult := Option QueryResult × WarehouseDataType

/-! ### The detector patterns of `LocalAIEngine` -/

def maintenanceWords : List String :=
  ["maintenance", "broken", "repair", "fix", "issue", "problem", "malfunction"]

def batteryWords : List String :=
  ["battery", "charging", "energy", "power", "charge", "charged"]

def statusWords : List String :=
  ["status", "state", "condition", "health", "operational", "functioning"]

def locationWords : List String :=
  ["where", "location", "position", "find", "locate", "situated", "placed", "area",
   "coordinate", "coordinates"]

def efficiencyWords : List String :=
  ["efficiency", "performance", "productivity", "effective", "output", "throughput",
   "production", "optimization"]

def overviewWords : List String :=
  ["overview", "summary", "dashboard", "stats", "statistics", "brief", "snapshot",
   "overall", "general"]

def toolWords : List String :=
  ["tool", "equipment", "attachment", "device", "implement", "accessory", "apparatus",
   "instrument"]

def highestWords : List String :=
  ["highest", "best", "most", "top", "maximum", "peak", "leading", "superior",
   "optimal", "greatest"]

def lowestWords : List String :=
  ["lowest", "worst", "least", "bottom", "minimum", "poorest", "weakest", "inferior",
   "suboptimal"]

def idleWords : List String :=
  ["idle", "inactive", "available", "free", "unused", "standby", "waiting", "ready",
   "dormant"]

def activeWords : List String :=
  ["active", "busy", "working", "engaged", "occupied", "operating", "running",
   "functioning", "in use"]

def compareWords : List String :=
  ["compare", "comparison", "versus", "vs", "contrast", "difference", "differential",
   "evaluate", "against", "between"]

def countWords : List String :=
  ["count", "how many", "total number", "quantity", "sum", "tally", "enumerate",
   "calculate", "measure"]

def priorityWords : List String :=
  ["priority", "important", "critical", "urgent", "crucial", "essential", "vital",
   "significance", "key", "main"]

def trafficWords : List String :=
  ["traffic", "congestion", "flow", "movement", "density", "crowded", "busy",
   "passage", "circulation", "transit"]

def deploymentWords : List String :=
  ["deploy", "assign", "send", "allocate", "dispatch", "direct", "relocate", "move",
   "transfer"]

def redistributeWords : List String :=
  ["redistribute", "reallocate", "reassign", "balance", "equilibrium", "even out",
   "rebalance"]

def optimizeWords : List String :=
  ["optimize", "improve", "enhance", "boost", "maximize", "augment", "upgrade",
   "streamline", "refine"]

def forecastWords : List String :=
  ["forecast", "predict", "projection", "future", "anticipate", "estimate", "foresee",
   "outlook", "prospect"]

def trendWords : List String :=
  ["trend", "pattern", "tendency", "direction", "progression", "development",
   "evolution", "course"]

def utilizationWords : List String :=
  ["utilization", "usage", "consumption", "employ", "use", "application",
   "exploitation"]

def capacityWords : List String :=
  ["capacity", "capability", "potential", "volume", "throughput", "output",
   "productivity", "yield"]

def scheduleWords : List String :=
  ["schedule", "plan", "timetable", "agenda", "calendar", "program", "arrangement",
   "itinerary"]

def maintenancePattern (q : List Char) : Bool := testWords maintenanceWords q

def batteryPattern (q : List Char) : Bool := testWords batteryWords q

def statusPattern (q : List Char) : Bool := testWords statusWords q

def locationPattern (q : List Char) : Bool := testWords locationWords q

def efficiencyPattern (q : List Char) : Bool := testWords efficiencyWords q

def overviewPattern (q : List Char) : Bool := testWords overviewWords q

def toolPattern (q : List Char) : Bool := testWords toolWords q

def highestPattern (q : List Char) : Bool := testWords highestWords q

def lowestPattern (q : List Char) : Bool := testWords lowestWords q

def idlePattern (q : List Char) : Bool := testWords idleWords q

def activePattern (q : List Char) : Bool := testWords activeWords q

def comparePattern (q : List Char) : Bool := testWords compareWords q

def countPattern (q : List Char) : Bool := testWords countWords q

def priorityPattern (q : List Char) : Bool := testWords priorityWords q

def trafficPattern (q : List Char) : Bool := testWords trafficWords q

def deploymentPattern (q : List Char) : Bool := testWords deploymentWords q

def redistributePattern (q : List Char) : Bool := testWords redistributeWords q

def optimizePattern (q : List Char) : Bool := testWords optimizeWords q

def forecastPattern (q : List Char) : Bool := testWords forecastWords q

def trendPattern (q : List Char) : Bool := testWords trendWords q

def utilizationPattern (q : List Char) : Bool := testWords utilizationWords q

def capacityPattern (q : List Char) : Bool := testWords capacityWords q

def schedulePattern (q : List Char) : Bool := testWords scheduleWords q

def robotIdPattern (q : List Char) : Bool := (robotIdMatch q).isSome

def zoneIdPattern (q : List Char) : Bool := (zoneLetterMatch q).isSome

def allFirstWords : List String :=
  ["all", "every", "list", "show", "display", "each", "present", "total", "full",
   "entire"]

def robotsSecondWords : List String :=
  ["robots", "amrs", "machines", "units", "devices"]

def zonesSecondWords : List String :=
  ["zones", "areas", "sections", "sectors", "regions", "locations"]

/-- One attempt of `/\b(all|…)\s+(robots|…)\b/i` at the head of `s`. -/
def pairHere (w2s : List String) (s : List Char) : Option Unit :=
  match allFirstWords.find? (fun w1 => listStartsWith s w1.data) with
  | none => none
  | some w1 =>
    let r := s.drop w1.data.length
    if (r.takeWhile wsChar).isEmpty then none
    else
      let r2 := r.dropWhile wsChar
      if w2s.any (fun w2 => wordHere r2 w2.data) then some () else none

def allRobotsPattern (q : List Char) : Bool :=
  (scanBound (pairHere robotsSecondWords) q false).isSome

def allZonesPattern (q : List Char) : Bool :=
  (scanBound (pairHere zonesSecondWords) q false).isSome

/-- `LocalAIEngine.isComplexQuery`: three or more of ten detector
families fire (the robot-id and zone-id extractions are counted). -/
def isComplexQuery (query : List Char) : Bool :=
  let patternCount :=
    (if robotIdPattern query then 1 else 0) +
    (if zoneIdPattern query then 1 else 0) +
    (if batteryPattern query then 1 else 0) +
    (if efficiencyPattern query then 1 else 0) +
    (if maintenancePattern query then 1 else 0) +
    (if toolPattern query then 1 else 0) +
    (if statusPattern query then 1 else 0) +
    (if priorityPattern query then 1 else 0) +
    (if trafficPattern query then 1 else 0) +
    (if comparePattern query then 1 else 0)
  decide (3 ≤ patternCount)

/-! ### Intent handlers -/

/-- `LocalAIEngine.getBatteryStatusDescription`. -/
def getBatteryStatusDescription (level : Nat) : String :=
  if level < 10 then "The battery is critically low and requires immediate charging."
  else if level < 30 then "The battery is running low and should be charged soon."
  else if level < 60 then "The battery level is moderate."
  else if level < 80 then "The battery level is good."
  else "The battery is nearly full."

/-- `LocalAIEngine.handleRobotQuery` (the numeric capture of the robot-id
pattern is parsed by the router and passed as `robotId`). -/
def handleRobotQuery (robotId : Nat) (query : List Char) (d : WarehouseDataType) : HResult :=
  match getRobotById d robotId with
  | none =>
    (some { message := "I couldn't find AMR " ++ natStr robotId ++
              " in the system. Please check the ID and try again.",
            response := { title := "Robot Not Found", data := RData.null,
                          type := "error", metadata := none } }, d)
  | some robot =>
    if locationPattern query then
      (some { message := "AMR " ++ padTwo robotId ++ " is currently located in " ++
                robot.zoneId ++ " at coordinates (" ++ natStr robot.coordinates.x ++
                ", " ++ natStr robot.coordinates.y ++ ").",
              response := { title := "AMR " ++ padTwo robotId ++ " Location",
                            data := RData.robot robot, type := "robot",
                            metadata := none } }, d)
    else if statusPattern query then
      (some { message := "AMR " ++ padTwo robotId ++ " is currently " ++ robot.status ++
                ". It has a battery level of " ++ natStr robot.batteryLevel ++
                "% and is " ++
                (if strTruthy robot.currentTask then "working on " ++ jsStr robot.currentTask
                 else "not assigned any tasks") ++ ".",
              response := { title := "AMR " ++ padTwo robotId ++ " Status",
                            data := RData.robot robot, type := "robot",
                            metadata := none } }, d)
    else if batteryPattern query then
      (some { message := "AMR " ++ padTwo robotId ++ " currently has a battery level of " ++
                natStr robot.batteryLevel ++ "%. " ++
                getBatteryStatusDescription robot.batteryLevel,
              response := { title := "AMR " ++ padTwo robotId ++ " Battery",
                            data := RData.robot robot, type := "robot",
                            metadata := none } }, d)
    else if toolPattern query then
      (some { message := "AMR " ++ padTwo robotId ++ " is currently equipped with the " ++
                robot.currentTool ++ " tool and is " ++
                (if robot.status == "active" then "actively using it for"
                 else "assigned to use it for") ++ " " ++ jsStr robot.currentTask ++ ".",
              response := { title := "AMR " ++ padTwo robotId ++ " Equipment",
                            data := RData.robot robot, type := "robot",
                            metadata := none } }, d)
    else
      (some { message := "AMR " ++ padTwo robotId ++ " is a " ++ robot.status ++
                " robot in " ++ robot.zoneId ++ ". It has a battery level of " ++
                natStr robot.batteryLevel ++ "% and is currently " ++
                (if strTruthy robot.currentTask then "working on " ++ jsStr robot.currentTask
                 else "not assigned any tasks") ++ ".",
              response := { title := "AMR " ++ padTwo robotId ++ " Information",
                            data := RData.robot robot, type := "robot",
                            metadata := none } }, d)

/-- `LocalAIEngine.handleZoneQuery` (the captured zone letter is passed
as `letter`). -/
def handleZoneQuery (letter : Char) (query : List Char) (d : WarehouseDataType) : HResult :=
  let zoneId := "Zone " ++ String.mk [letter.toUpper]
  match getZoneById d zoneId with
  | none =>
    (some { message := "I couldn't find " ++ zoneId ++
              " in the system. Available zones are Zone A, Zone B, and Zone C.",
            response := { title := "Zone Not Found", data := RData.null,
                          type := "error", metadata := none } }, d)
  | some zone =>
    if robotIdPattern query || hasSubstr query "robots".data || hasSubstr query "amrs".data then
      let zoneRobots := d.robots.filter (fun r => r.zoneId == zoneId)
      let robotInfo :=
        if 0 < zoneRobots.length then
          "There are " ++ natStr zoneRobots.length ++ " AMRs in this zone: " ++
            String.intercalate ", " (zoneRobots.map (fun r => "AMR " ++ natStr r.id)) ++ "."
        else "There are currently no AMRs operating in this zone."
      (some { message := zoneId ++ " currently has " ++ natStr zone.robotCount ++
                " active AMRs. " ++ robotInfo ++ " The zone has " ++
                natStr zone.tasksPending ++ " pending tasks and " ++
                natStr zone.tasksCompleted ++ " completed tasks.",
              response := { title := zoneId ++ " Robots", data := RData.zone zone,
                            type := "zone", metadata := none } }, d)
    else if efficiencyPattern query then
      (some { message := zoneId ++ " is currently operating at " ++ natStr zone.efficiency ++
                "% efficiency. This zone has a " ++ zone.trafficDensity ++
                " traffic density and " ++ natStr zone.tasksPending ++ " pending tasks.",
              response := { title := zoneId ++ " Efficiency", data := RData.zone zone,
                            type := "zone", metadata := none } }, d)
    else
      (some { message := zoneId ++ " is a " ++ zone.priority ++ " priority zone with " ++
                natStr zone.robotCount ++ " active AMRs. The zone has " ++
                natStr zone.tasksPending ++ " pending tasks, " ++
                natStr zone.tasksCompleted ++ " completed tasks, and is operating at " ++
                natStr zone.efficiency ++ "% efficiency with " ++ zone.trafficDensity ++
                " traffic density.",
              response := { title := zoneId ++ " Status", data := RData.zone zone,
                            type := "zone", metadata := none } }, d)

/-- `LocalAIEngine.handleOverviewQuery`. -/
def handleOverviewQuery (_query : List Char) (d : WarehouseDataType) : HResult :=
  let activeCount := (d.robots.filter (fun r => r.status == "active")).length
  let idleCount := (d.robots.filter (fun r => r.status == "idle")).length
  let chargingCount := (d.robots.filter (fun r => r.status == "charging")).length
  let maintenanceCount := (d.robots.filter (fun r => r.status == "maintenance")).length
  let totalPendingTasks := (d.zones.map Zone.tasksPending).sum
  let highTrafficZones := (d.zones.filter (fun z => z.trafficDensity == "high")).length
  let insights :=
    [natStr d.overview.activeRobots ++ " out of " ++ natStr d.overview.totalRobots ++
       " AMRs are currently active",
     "Overall warehouse efficiency is at " ++ natStr d.overview.robotEfficiency ++ "%",
     natStr totalPendingTasks ++ " tasks are currently pending across all zones",
     natStr highTrafficZones ++ " zones have high traffic density",
     natStr maintenanceCount ++ " AMRs are currently in maintenance"]
  (some { message := "The warehouse currently has " ++ natStr d.overview.activeRobots ++
            " active AMRs out of a total of " ++ natStr d.overview.totalRobots ++
            ". The overall robot efficiency is " ++ natStr d.overview.robotEfficiency ++
            "% with " ++ natStr d.overview.tasksCompleted ++ " tasks completed today.",
          response := { title := "Warehouse Overview", data := RData.overview d.overview,
                        type := "overview",
                        metadata := some { md0 with
                          secondaryData := some (Secondary.strings insights),
                          chartData := some [("Active", activeCount), ("Idle", idleCount),
                            ("Charging", chargingCount), ("Maintenance", maintenanceCount)] } } },
   d)

/-- `LocalAIEngine.handleEfficiencyQuery`. -/
def handleEfficiencyQuery (query : List Char) (d : WarehouseDataType) : HResult :=
  if highestPattern query &&
      (hasSubstr query "robot".data || hasSubstr query "amr".data) then
    match d.robots.jsSort (fun a b => decide (b.efficiency ≤ a.efficiency)) with
    | [] => (none, d)
    | topRobot :: _ =>
      (some { message := "The most efficient robot is AMR " ++ natStr topRobot.id ++
                " with an efficiency rating of " ++ natStr topRobot.efficiency ++
                "%. It's currently " ++ topRobot.status ++ " in " ++ topRobot.zoneId ++ ".",
              response := { title := "Most Efficient Robot", data := RData.robot topRobot,
                            type := "robot", metadata := none } }, d)
  else if lowestPattern query &&
      (hasSubstr query "robot".data || hasSubstr query "amr".data) then
    match d.robots.jsSort (fun a b => decide (a.efficiency ≤ b.efficiency)) with
    | [] => (none, d)
    | bottomRobot :: _ =>
      (some { message := "The least efficient robot is AMR " ++ natStr bottomRobot.id ++
                " with an efficiency rating of " ++ natStr bottomRobot.efficiency ++
                "%. It's currently " ++ bottomRobot.status ++ " in " ++
                bottomRobot.zoneId ++ ".",
              response := { title := "Least Efficient Robot", data := RData.robot bottomRobot,
                            type := "robot", metadata := none } }, d)
  else if highestPattern query && hasSubstr query "zone".data then
    match d.zones.jsSort (fun a b => decide (b.efficiency ≤ a.efficiency)) with
    | [] => (none, d)
    | topZone :: _ =>
      (some { message := "The most efficient zone is " ++ topZone.name ++
                " with an efficiency rating of " ++ natStr topZone.efficiency ++
                "%. It has " ++ natStr topZone.robotCount ++ " active AMRs and " ++
                natStr topZone.tasksPending ++ " pending tasks.",
              response := { title := "Most Efficient Zone", data := RData.zone topZone,
                            type := "zone", metadata := none } }, d)
  else if lowestPattern query && hasSubstr query "zone".data then
    match d.zones.jsSort (fun a b => decide (a.efficiency ≤ b.efficiency)) with
    | [] => (none, d)
    | bottomZone :: _ =>
      (some { message := "The least efficient zone is " ++ bottomZone.name ++
                " with an efficiency rating of " ++ natStr bottomZone.efficiency ++
                "%. It has " ++ natStr bottomZone.robotCount ++ " active AMRs and " ++
                natStr bottomZone.tasksPending ++ " pending tasks.",
              response := { title := "Least Efficient Zone", data := RData.zone bottomZone,
                            type := "zone", metadata := none } }, d)
  else
    let sortedRobots := d.robots.jsSort (fun a b => decide (b.efficiency ≤ a.efficiency))
    let sortedZones := d.zones.jsSort (fun a b => decide (b.efficiency ≤ a.efficiency))
    let topRobots := (sortedRobots.take 5).foldl
      (fun result robot => recSetG result ("AMR " ++ natStr robot.id) robot.efficiency) []
    let topZones := sortedZones.foldl
      (fun result zone => recSetG result zone.name zone.efficiency) []
    match sortedRobots with
    | [] => (none, d)
    | topR :: _ =>
      match sortedZones with
      | [] => (none, d)
      | topZ :: _ =>
      (some { message := "The overall warehouse efficiency is " ++
                natStr d.overview.robotEfficiency ++ "%. The most efficient zone is " ++
                topZ.name ++ " at " ++ natStr topZ.efficiency ++
                "% and the most efficient AMR is AMR " ++ natStr topR.id ++ " at " ++
                natStr topR.efficiency ++ "%.",
              response := { title := "Efficiency Analysis", data := RData.robots sortedRobots,
                            type := "comparison",
                            metadata := some { md0 with
                              comparisonType := some "Efficiency",
                              metricName := some "Efficiency",
                              chartData := some (recMerge topRobots topZones) } } }, d)

/-- `LocalAIEngine.handleStatusQuery`. -/
def handleStatusQuery (query : List Char) (d : WarehouseDataType) : HResult :=
  if idlePattern query then
    match d.robots.filter (fun r => r.status == "idle") with
    | [] =>
      (some { message := "There are currently no idle AMRs in the warehouse. All robots are actively engaged in tasks.",
              response := { title := "Idle AMRs", data := RData.null,
                            type := "error", metadata := none } }, d)
    | firstIdleRobot :: rest =>
      (some { message := "There are " ++ natStr (firstIdleRobot :: rest).length ++
                " idle AMRs in the warehouse. AMR " ++ natStr firstIdleRobot.id ++
                " is currently idle in " ++ firstIdleRobot.zoneId ++ ".",
              response := { title := "Idle AMR Status", data := RData.robot firstIdleRobot,
                            type := "robot", metadata := none } }, d)
  else if activePattern query then
    match d.robots.filter (fun r => r.status == "active") with
    | [] =>
      (some { message := "There are currently no active AMRs in the warehouse. Most robots may be charging or in maintenance.",
              response := { title := "Active AMRs", data := RData.null,
                            type := "error", metadata := none } }, d)
    | firstActiveRobot :: rest =>
      (some { message := "There are " ++ natStr (firstActiveRobot :: rest).length ++
                " active AMRs in the warehouse. AMR " ++ natStr firstActiveRobot.id ++
                " is currently active in " ++ firstActiveRobot.zoneId ++
                ", working on " ++ jsStr firstActiveRobot.currentTask ++ ".",
              response := { title := "Active AMR Status", data := RData.robot firstActiveRobot,
                            type := "robot", metadata := none } }, d)
  else
    let activeCount := (d.robots.filter (fun r => r.status == "active")).length
    let idleCount := (d.robots.filter (fun r => r.status == "idle")).length
    let chargingCount := (d.robots.filter (fun r => r.status == "charging")).length
    let maintenanceCount := (d.robots.filter (fun r => r.status == "maintenance")).length
    (some { message := "The warehouse currently has " ++ natStr d.overview.activeRobots ++
              " active AMRs out of " ++ natStr d.overview.totalRobots ++ " total. " ++
              natStr chargingCount ++ " are charging, " ++ natStr maintenanceCount ++
              " are in maintenance, and " ++ natStr idleCount ++ " are idle.",
            response := { title := "AMR Status Overview", data := RData.robots d.robots,
                          type := "multi-robot",
                          metadata := some { md0 with
                            metricName := some "Status Distribution",
                            chartData := some [("Active", activeCount), ("Idle", idleCount),
                              ("Charging", chargingCount),
                              ("Maintenance", maintenanceCount)] } } }, d)

/-- `LocalAIEngine.handleMaintenanceQuery`. -/
def handleMaintenanceQuery (_query : List Char) (d : WarehouseDataType) : HResult :=
  match d.robots.filter (fun r => r.status == "maintenance") with
  | [] =>
    (some { message := "There are currently no AMRs in maintenance. All robots are operational.",
            response := { title := "Maintenance Status", data := RData.null,
                          type := "error", metadata := none } }, d)
  | firstMaintenanceRobot :: rest =>
    (some { message := "There are " ++ natStr (firstMaintenanceRobot :: rest).length ++
              " AMRs currently undergoing maintenance. AMR " ++
              natStr firstMaintenanceRobot.id ++ " is in maintenance in " ++
              firstMaintenanceRobot.zoneId ++ ".",
            response := { title := "Maintenance Status",
                          data := RData.robot firstMaintenanceRobot,
                          type := "robot", metadata := none } }, d)

/-- `LocalAIEngine.handleBatteryQuery`. -/
def handleBatteryQuery (query : List Char) (d : WarehouseDataType) : HResult :=
  if lowestPattern query then
    match d.robots.jsSort (fun a b => decide (a.batteryLevel ≤ b.batteryLevel)) with
    | [] => (none, d)
    | lowestBatteryRobot :: _ =>
      (some { message := "AMR " ++ natStr lowestBatteryRobot.id ++
                " has the lowest battery at " ++ natStr lowestBatteryRobot.batteryLevel ++
                "%. " ++ getBatteryStatusDescription lowestBatteryRobot.batteryLevel,
              response := { title := "Lowest Battery AMR",
                            data := RData.robot lowestBatteryRobot,
                            type := "robot", metadata := none } }, d)
  else if hasSubstr query "charging".data then
    match d.robots.filter (fun r => r.status == "charging") with
    | [] =>
      (some { message := "There are currently no AMRs charging. All robots are either active, idle, or in maintenance.",
              response := { title := "Charging Status", data := RData.null,
                            type := "error", metadata := none } }, d)
    | firstChargingRobot :: rest =>
      (some { message := "There are " ++ natStr (firstChargingRobot :: rest).length ++
                " AMRs currently charging. AMR " ++ natStr firstChargingRobot.id ++
                " is charging in " ++ firstChargingRobot.zoneId ++ " at " ++
                natStr firstChargingRobot.batteryLevel ++ "%.",
              response := { title := "Charging Status",
                            data := RData.robot firstChargingRobot,
                            type := "robot", metadata := none } }, d)
  else
    let averageBattery :=
      roundDiv ((d.robots.map Robot.batteryLevel).sum) d.robots.length
    let criticalBatteryRobots := (d.robots.filter (fun r => r.batteryLevel < 20)).length
    let sortedByBattery :=
      d.robots.jsSort (fun a b => decide (b.batteryLevel ≤ a.batteryLevel))
    let batteryLevels :=
      [("Critical (0-20%)", (d.robots.filter (fun r => r.batteryLevel < 20)).length),
       ("Low (20-40%)",
        (d.robots.filter (fun r => 20 ≤ r.batteryLevel && r.batteryLevel < 40)).length),
       ("Medium (40-60%)",
        (d.robots.filter (fun r => 40 ≤ r.batteryLevel && r.batteryLevel < 60)).length),
       ("Good (60-80%)",
        (d.robots.filter (fun r => 60 ≤ r.batteryLevel && r.batteryLevel < 80)).length),
       ("Full (80-100%)", (d.robots.filter (fun r => 80 ≤ r.batteryLevel)).length)]
    (some { message := "The average battery level across all AMRs is " ++
              natStr averageBattery ++ "%. There are " ++ natStr criticalBatteryRobots ++
              " robots with critical battery levels (below 20%).",
            response := { title := "Battery Overview", data := RData.robots sortedByBattery,
                          type := "multi-robot",
                          metadata := some { md0 with
                            metricName := some "Battery Levels",
                            chartData := some batteryLevels } } }, d)

/-- `LocalAIEngine.handleMultiRobotLocationQuery`. -/
def handleMultiRobotLocationQuery (_query : List Char) (d : WarehouseDataType) : HResult :=
  let robotsByZone := d.zones.map
    (fun zone => (zone, d.robots.filter (fun r => r.zoneId == zone.id)))
  let distributionByZone := d.zones.foldl
    (fun m zone =>
      recSetG m zone.name ((d.robots.filter (fun r => r.zoneId == zone.id)).length)) []
  match robotsByZone.jsSort (fun a b => decide (b.2.length ≤ a.2.length)) with
  | [] => (none, d)
  | zoneWithMostRobots :: _ =>
    (some { message := "Most AMRs are currently in " ++ zoneWithMostRobots.1.name ++
              " (" ++ natStr zoneWithMostRobots.2.length ++ " robots). " ++
              String.intercalate ", "
                (d.zones.map (fun z => z.name ++ ": " ++
                  natStr ((d.robots.filter (fun r => r.zoneId == z.id)).length) ++
                  " AMRs")) ++ ".",
            response := { title := "Robot Locations", data := RData.robots d.robots,
                          type := "multi-robot",
                          metadata := some { md0 with
                            metricName := some "Zone Distribution",
                            chartData := some distributionByZone } } }, d)

/-- The tool names probed by the complex handler (`toolTerms`). -/
def toolTerms : List String :=
  ["forklift", "gripper", "conveyor", "scanner", "lift", "arm", "vacuum"]

/-- Default branch of `handleComplexQuery` (the "comprehensive analysis"
narrative). -/
def complexDefault (query : List Char) (d : WarehouseDataType) : HResult :=
  let hasBattery := batteryPattern query
  let hasEfficiency := efficiencyPattern query
  let hasMaintenance := maintenancePattern query
  let hasZone := zoneIdPattern query
  let hasRobot := robotIdPattern query
  let base := "Based on your complex query, here's a comprehensive analysis:\n\n"
  let (title, analysisMessage) :=
    if hasZone then
      match zoneLetterMatch query with
      | none => ("Comprehensive Analysis", base)
      | some letter =>
        let zoneId := "Zone " ++ String.mk [letter.toUpper]
        match getZoneById d zoneId with
        | none => ("Comprehensive Analysis", base)
        | some zone =>
          let zoneRobots := d.robots.filter (fun r => r.zoneId == zoneId)
          let msg := base ++ zone.name ++ " is a " ++ zone.priority ++
            " priority zone with " ++ natStr zone.robotCount ++ " active AMRs and " ++
            natStr zone.tasksPending ++ " pending tasks.\n\n"
          let msg :=
            if 0 < zoneRobots.length then
              msg ++ "AMRs in this zone:\n" ++
                String.join (zoneRobots.map (fun r =>
                  "- AMR " ++ natStr r.id ++ ": " ++ r.status ++ ", " ++
                    natStr r.batteryLevel ++ "% battery, using " ++ r.currentTool ++
                    " tool\n"))
            else msg
          (zone.name ++ " Analysis", msg)
    else if hasRobot then
      match robotIdMatch query with
      | none => ("Comprehensive Analysis", base)
      | some robotId =>
        match getRobotById d robotId with
        | none => ("Comprehensive Analysis", base)
        | some robot =>
          ("AMR " ++ natStr robot.id ++ " Analysis",
           base ++ "AMR " ++ natStr robot.id ++ " is a " ++ robot.status ++
             " robot in " ++ robot.zoneId ++ " with " ++ natStr robot.batteryLevel ++
             "% battery.\n" ++
             "It's using a " ++ robot.currentTool ++ " tool and currently " ++
             (if strTruthy robot.currentTask then "working on " ++ jsStr robot.currentTask
              else "not assigned any tasks") ++ ".\n" ++
             "This robot is operating at " ++ natStr robot.efficiency ++
             "% efficiency.\n\n")
    else
      let msg := base ++ "Warehouse Overview:\n" ++
        "- " ++ natStr d.overview.activeRobots ++ " active AMRs out of " ++
        natStr d.overview.totalRobots ++ " total\n" ++
        "- Overall efficiency: " ++ natStr d.overview.robotEfficiency ++ "%\n" ++
        "- Tasks completed today: " ++ natStr d.overview.tasksCompleted ++ "\n\n"
      let highPriorityZones := d.zones.filter (fun z => z.priority == "high")
      let msg :=
        if 0 < highPriorityZones.length then
          msg ++ "High Priority Zones: " ++
            String.intercalate ", " (highPriorityZones.map Zone.name) ++ "\n"
        else msg
      let msg :=
        if hasBattery then
          let lowBatteryRobots := d.robots.filter (fun r => r.batteryLevel < 30)
          if 0 < lowBatteryRobots.length then
            msg ++ "\nCritical Battery Levels:\n" ++
              String.join (lowBatteryRobots.map (fun r =>
                "- AMR " ++ natStr r.id ++ ": " ++ natStr r.batteryLevel ++
                  "% battery in " ++ r.zoneId ++ "\n"))
          else msg
        else msg
      let msg :=
        if hasMaintenance then
          let maintenanceRobots := d.robots.filter (fun r => r.status == "maintenance")
          if 0 < maintenanceRobots.length then
            msg ++ "\nRobots in Maintenance:\n" ++
              String.join (maintenanceRobots.map (fun r =>
                "- AMR " ++ natStr r.id ++ " in " ++ r.zoneId ++ "\n"))
          else msg
        else msg
      ("Comprehensive Analysis", msg)
  let analysisMessage :=
    if hasEfficiency then
      analysisMessage ++ "\nEfficiency Recommendations:\n" ++
        "- Redistribute AMRs from low-task zones to high-priority zones\n" ++
        "- Prioritize charging for AMRs with battery levels between 30-40%\n" ++
        "- Swap tools to match the most common tasks in each zone\n"
    else analysisMessage
  (some { message := strTrim analysisMessage,
          response := { title := title,
                        data := if hasZone || hasRobot then
                            (if hasZone then RData.zones d.zones else RData.robots d.robots)
                          else RData.overview d.overview,
                        type := if hasZone then "multi-zone"
                          else (if hasRobot then "multi-robot" else "overview"),
                        metadata := some { md0 with
                          secondaryData :=
                            some (Secondary.strings (strSplitNN analysisMessage)) } } }, d)

/-- Third special case of `handleComplexQuery`: compare + zone +
efficiency (per-zone average efficiency, optionally filtered by tool). -/
def complexCompareBranch (query : List Char) (d : WarehouseDataType) : HResult :=
  if comparePattern query && zoneIdPattern query && efficiencyPattern query then
    let toolFilter : Option String :=
      if toolPattern query then toolTerms.find? (fun term => hasSubstr query term.data)
      else none
    let step := fun (acc : List (String × Nat) × List (String × Nat)) (zone : Zone) =>
      let zoneRobots : List Robot := d.robots.filter (fun r => r.zoneId == zone.id)
      let filteredRobots : List Robot :=
        match toolFilter with
        | some t =>
          zoneRobots.filter (fun (r : Robot) => hasSubstr (strLower r.currentTool).data t.data)
        | none => zoneRobots
      let eff : Nat :=
        if 0 < filteredRobots.length then
          roundDiv ((filteredRobots.map Robot.efficiency).sum) filteredRobots.length
        else 0
      (recSetG acc.1 zone.name eff, recSetG acc.2 zone.name filteredRobots.length)
    let (zoneEfficiencies, zoneRobotCounts) := d.zones.foldl step ([], [])
    let toolMessage :=
      match toolFilter with
      | some t => " using " ++ t ++ " tools"
      | none => ""
    let message := zoneEfficiencies.foldl
      (fun m p => m ++ "- " ++ p.1 ++ ": " ++ natStr p.2 ++ "% efficiency (" ++
        natStr ((recGetG zoneRobotCounts p.1).getD 0) ++ " AMRs" ++ toolMessage ++ ")\n")
      ("Zone efficiency comparison for AMRs" ++ toolMessage ++ ":\n")
    (some { message := strTrim message,
            response := { title := "Zone Efficiency Comparison" ++
                            (match toolFilter with
                             | some t => " - " ++ t ++ " Tools"
                             | none => ""),
                          data := RData.zones d.zones, type := "comparison",
                          metadata := some { md0 with
                            comparisonType := some "Zone",
                            metricName := some "Efficiency",
                            chartData := some zoneEfficiencies } } }, d)
  else complexDefault query d

/-- Second special case of `handleComplexQuery`: tool + battery
(robots on a given tool below a battery threshold). -/
def complexToolBranch (query : List Char) (d : WarehouseDataType) : HResult :=
  if toolPattern query && batteryPattern query then
    let toolName := (toolTerms.find? (fun term => hasSubstr query term.data)).getD "forklift"
    let batteryThreshold := (percentMatch query).getD 50
    let matchingRobots := d.robots.filter (fun r =>
      hasSubstr (strLower r.currentTool).data toolName.data &&
        r.batteryLevel < batteryThreshold)
    match matchingRobots with
    | [] =>
      (some { message := "No AMRs with the " ++ toolName ++
                " tool have battery levels below " ++ natStr batteryThreshold ++ "%.",
              response := { title := capFirst toolName ++ " Tool Users",
                            data := RData.robots [], type := "multi-robot",
                            metadata := none } }, d)
    | _ :: _ =>
      (some { message := natStr matchingRobots.length ++ " AMRs are using the " ++
                toolName ++ " tool and have battery levels below " ++
                natStr batteryThreshold ++ "%: " ++
                String.intercalate ", " (matchingRobots.map (fun r =>
                  "AMR " ++ natStr r.id ++ " (" ++ natStr r.batteryLevel ++ "%)")) ++ ".",
              response := { title := capFirst toolName ++ " Tool Users - Low Battery",
                            data := RData.robots matchingRobots, type := "multi-robot",
                            metadata := some { md0 with
                              metricName := some "Battery Level",
                              chartData := some (matchingRobots.foldl
                                (fun result robot =>
                                  recSetG result ("AMR " ++ natStr robot.id)
                                    robot.batteryLevel) []) } } }, d)
  else complexCompareBranch query d

/-- `LocalAIEngine.handleComplexQuery`. -/
def handleComplexQuery (query : List Char) (d : WarehouseDataType) : HResult :=
  if zoneIdPattern query && batteryPattern query && efficiencyPattern query then
    match zoneLetterMatch query with
    | none => complexToolBranch query d
    | some letter =>
      let zoneId := "Zone " ++ String.mk [letter.toUpper]
      match getZoneById d zoneId with
      | none =>
        (some { message := "I couldn't find " ++ zoneId ++ " in the system.",
                response := { title := "Zone Not Found", data := RData.null,
                              type := "error", metadata := none } }, d)
      | some _zone =>
        let efficiencyThreshold := (percentMatch query).getD 70
        let zoneRobots := d.robots.filter (fun r =>
          r.zoneId == zoneId && r.efficiency < efficiencyThreshold)
        match zoneRobots with
        | [] =>
          (some { message := "There are no AMRs in " ++ zoneId ++
                    " with efficiency below " ++ natStr efficiencyThreshold ++ "%.",
                  response := { title := zoneId ++ " Battery Analysis",
                                data := RData.robots [], type := "multi-robot",
                                metadata := none } }, d)
        | _ :: _ =>
          let sortedRobots :=
            zoneRobots.jsSort (fun a b => decide (a.batteryLevel ≤ b.batteryLevel))
          let batteryLevels := sortedRobots.foldl
            (fun result robot =>
              recSetG result ("AMR " ++ natStr robot.id) robot.batteryLevel) []
          match sortedRobots with
          | [] => (none, d)
          | r0 :: rs =>
            (some { message := "In " ++ zoneId ++ ", " ++ natStr sortedRobots.length ++
                      " AMRs have efficiency below " ++ natStr efficiencyThreshold ++
                      "%. Their battery levels range from " ++ natStr r0.batteryLevel ++
                      "% to " ++ natStr ((r0 :: rs).getLastD r0).batteryLevel ++ "%.",
                    response := { title := zoneId ++ " Low Efficiency AMRs - Battery Analysis",
                                  data := RData.robots sortedRobots, type := "multi-robot",
                                  metadata := some { md0 with
                                    metricName := some "Battery Level",
                                    chartData := some batteryLevels } } }, d)
  else complexToolBranch query d

/-- Comparator of the deployment plan sort: idle robots first, then by
descending battery level (`le a b` ↔ the JS comparator is `≤ 0`). -/
def deployLe (a b : Robot) : Bool :=
  if a.status == "idle" && !(b.status == "idle") then true
  else if !(a.status == "idle") && b.status == "idle" then false
  else decide (b.batteryLevel ≤ a.batteryLevel)

/-- Innermost redistribution loop (`for (const robot of sourceRobots)`):
JS iterates by index while the current element is spliced out, so after
removing index `i` the iterator resumes at the new index `i + 1`,
skipping one element.  Returns the remaining source robots, the grown
plan, and whether the target got its two moves (and is to be deleted). -/
def redistInner (src tgt : String) (arr : List Robot) (i : Nat) (plan : List String) :
    List Robot × List String × Bool :=
  if h : i < arr.length then
    let robot := arr.get ⟨i, h⟩
    let plan := plan ++ ["Move AMR " ++ natStr robot.id ++ " from " ++ src ++ " to " ++ tgt]
    let arr := arr.eraseIdx i
    if 2 ≤ (plan.filter (fun p => hasSubstr p.data tgt.data)).length then (arr, plan, true)
    else if arr.length = 0 then (arr, plan, false)
    else redistInner src tgt arr (i + 1) plan
  else (arr, plan, false)
termination_by arr.length
decreasing_by
  simp [List.length_eraseIdx, h]
  omega

/-- Middle redistribution loop (`for (const targetZoneId of Object.keys(targetZones))`;
the key array is a snapshot, deletion only affects later outer rounds). -/
def redistMiddle (src : String) (keys : List String) (targets : List String)
    (arr : List Robot) (plan : List String) : List String × List Robot × List String :=
  match keys with
  | [] => (targets, arr, plan)
  | tgt :: rest =>
    let (arr2, plan2, deleted) := redistInner src tgt arr 0 plan
    let targets2 := if deleted then targets.filter (fun k => !(k == tgt)) else targets
    if arr2.length = 0 then (targets2, arr2, plan2)
    else redistMiddle src rest targets2 arr2 plan2

/-- Outer redistribution loop over `Object.entries(redistributableRobots)`. -/
def redistOuter (entries : List (String × List Robot)) (targets : List String)
    (plan : List String) : List String :=
  match entries with
  | [] => plan
  | (src, arr) :: rest =>
    let (targets2, _, plan2) := redistMiddle src targets targets arr plan
    redistOuter rest targets2 plan2

/-- General-deployment loop: per high-task zone, plan up to two of the
currently idle robots and splice them out of the idle list. -/
def deployGeneralLoop : List Zone → List Robot → List String → List String
  | [], _, plans => plans
  | zone :: rest, idleRobots, plans =>
    let availableRobots := idleRobots.take 2
    let plans := plans ++ availableRobots.map (fun robot =>
      "Deploy AMR " ++ natStr robot.id ++ " to " ++ zone.name ++ " to help with " ++
        natStr zone.tasksPending ++ " pending tasks")
    let idleRobots := idleRobots.drop availableRobots.length
    if idleRobots.length = 0 then plans else deployGeneralLoop rest idleRobots plans

/-- Redistribution branch of `handleDeploymentQuery`. -/
def deploymentRedistribute (_query : List Char) (d : WarehouseDataType) : HResult :=
  let highPriorityZones := d.zones.filter (fun z => z.priority == "high" && 5 < z.tasksPending)
  let lowPriorityZones := d.zones.filter (fun z => z.priority == "low" && z.tasksPending < 3)
  if highPriorityZones.length = 0 || lowPriorityZones.length = 0 then
    (some { message := "There's currently no need for robot redistribution. Zone priorities and task loads are well balanced.",
            response := { title := "Resource Distribution", data := RData.zones d.zones,
                          type := "multi-zone", metadata := none } }, d)
  else
    let redistributableRobots := lowPriorityZones.foldl
      (fun (m : List (String × List Robot)) lowZone =>
        let zoneRobots := d.robots.filter (fun r =>
          r.zoneId == lowZone.id && !(r.status == "maintenance"))
        if 1 < zoneRobots.length then
          recSetG m lowZone.id (zoneRobots.take (zoneRobots.length - 1))
        else m) []
    let targetZones := highPriorityZones.foldl
      (fun (ks : List String) highZone =>
        if ks.any (fun k => k == highZone.id) then ks else ks ++ [highZone.id]) []
    let redistributionPlan := redistOuter redistributableRobots targetZones []
    if redistributionPlan.length = 0 then
      (some { message := "After analysis, I don't recommend any robot redistribution at this time. The current allocation is optimal given the task distribution.",
              response := { title := "Resource Distribution", data := RData.zones d.zones,
                            type := "multi-zone", metadata := none } }, d)
    else
      (some { message := "I recommend the following robot redistribution plan to optimize warehouse operations:\n\n" ++
                String.intercalate "\n" redistributionPlan,
              response := { title := "Robot Redistribution Plan", data := RData.zones d.zones,
                            type := "multi-zone",
                            metadata := some { md0 with
                              secondaryData :=
                                some (Secondary.strings redistributionPlan) } } }, d)

/-- General-deployment branch of `handleDeploymentQuery`. -/
def deploymentGeneral (_query : List Char) (d : WarehouseDataType) : HResult :=
  let highTaskZones :=
    (d.zones.jsSort (fun a b => decide (b.tasksPending ≤ a.tasksPending))).take 2
  let idleRobots := d.robots.filter (fun r => r.status == "idle")
  if idleRobots.length = 0 then
    (some { message := "There are currently no idle AMRs available for deployment. All robots are actively engaged in tasks.",
            response := { title := "Deployment Recommendation", data := RData.null,
                          type := "error", metadata := none } }, d)
  else if highTaskZones.length = 0 then
    (some { message := "All zones currently have balanced task loads. No specific deployment recommendation is needed at this time.",
            response := { title := "Deployment Recommendation", data := RData.zones d.zones,
                          type := "multi-zone", metadata := none } }, d)
  else
    let deploymentPlans := deployGeneralLoop highTaskZones idleRobots []
    (some { message := "Based on the current warehouse state, I recommend the following deployments:\n\n" ++
              String.intercalate "\n" deploymentPlans,
            response := { title := "Deployment Recommendations",
                          data := RData.zones highTaskZones, type := "multi-zone",
                          metadata := some { md0 with
                            secondaryData := some (Secondary.strings deploymentPlans) } } }, d)

/-- Fall-through of the zone branch of `handleDeploymentQuery`. -/
def deploymentRest (query : List Char) (d : WarehouseDataType) : HResult :=
  if redistributePattern query then deploymentRedistribute query d
  else deploymentGeneral query d

/-- `LocalAIEngine.handleDeploymentQuery`. -/
def handleDeploymentQuery (query : List Char) (d : WarehouseDataType) : HResult :=
  if zoneIdPattern query then
    match zoneLetterMatch query with
    | none => deploymentRest query d
    | some letter =>
      let zoneId := "Zone " ++ String.mk [letter.toUpper]
      match getZoneById d zoneId with
      | none =>
        (some { message := "I couldn't find " ++ zoneId ++ " in the system.",
                response := { title := "Zone Not Found", data := RData.null,
                              type := "error", metadata := none } }, d)
      | some zone =>
        let robotCount := (countRobotsMatch query).getD 2
        let availableRobots := d.robots.filter (fun r =>
          r.status == "idle" ||
            (!(r.status == "maintenance") && !(r.zoneId == zoneId) &&
              !(match getZoneById d r.zoneId with
                | some z => z.priority == "high"
                | none => false)))
        if availableRobots.length = 0 then
          (some { message := "There are no available AMRs to deploy to " ++ zoneId ++
                    ". All AMRs are either in high priority zones or in maintenance.",
                  response := { title := "Deployment to " ++ zoneId, data := RData.null,
                                type := "error", metadata := none } }, d)
        else
          let sortedRobots := availableRobots.jsSort deployLe
          let deployableRobots := sortedRobots.take robotCount
          (some { message := "I can deploy " ++ natStr deployableRobots.length ++
                    " AMRs to " ++ zoneId ++ ": " ++
                    String.intercalate ", " (deployableRobots.map (fun r =>
                      "AMR " ++ natStr r.id ++ " (" ++ natStr r.batteryLevel ++
                        "% battery, currently " ++ r.status ++
                        (if !(r.status == "idle") then " in " ++ r.zoneId else "") ++
                        ")")) ++ ".",
                  response := { title := "Deployment Plan for " ++ zoneId,
                                data := RData.robots deployableRobots,
                                type := "multi-robot",
                                metadata := some { md0 with
                                  secondaryData := some (Secondary.strings
                                    ["Target zone: " ++ zoneId ++ " (" ++ zone.priority ++
                                       " priority)",
                                     "Current robot count: " ++ natStr zone.robotCount,
                                     "Pending tasks: " ++ natStr zone.tasksPending,
                                     "Traffic density: " ++ zone.trafficDensity]) } } }, d)
  else deploymentRest query d

/-- The per-tool usage record (`toolCounts`), built in first-occurrence
order by JS object assignment. -/
def toolCounts (robots : List Robot) : List (String × Nat) :=
  robots.foldl
    (fun m r => recSetG m r.currentTool (((recGetG m r.currentTool).getD 0) + 1)) []

/-- `LocalAIEngine.handleOptimizationQuery`. -/
def handleOptimizationQuery (_query : List Char) (d : WarehouseDataType) : HResult :=
  let lowBatteryRobots := d.robots.filter (fun r =>
    r.batteryLevel < 30 && !(r.status == "charging"))
  let maintenanceRobots := d.robots.filter (fun r => r.status == "maintenance")
  let idleRobots := d.robots.filter (fun r => r.status == "idle")
  let highTrafficZones := d.zones.filter (fun z => z.trafficDensity == "high")
  let highTaskZones := d.zones.filter (fun z => 5 < z.tasksPending)
  let optimizations : List String := []
  let optimizations :=
    if 0 < lowBatteryRobots.length then
      optimizations ++ ["Schedule " ++ natStr lowBatteryRobots.length ++
        " AMRs for charging: " ++
        String.intercalate ", " (lowBatteryRobots.map (fun r =>
          "AMR " ++ natStr r.id ++ " (" ++ natStr r.batteryLevel ++ "%)"))]
    else optimizations
  let optimizations :=
    if 0 < maintenanceRobots.length then
      optimizations ++ ["Prioritize maintenance completion for " ++
        natStr maintenanceRobots.length ++ " AMRs: " ++
        String.intercalate ", " (maintenanceRobots.map (fun r => "AMR " ++ natStr r.id))]
    else optimizations
  let optimizations :=
    if 0 < idleRobots.length && 0 < highTaskZones.length then
      optimizations ++ ["Reassign " ++
        natStr (min idleRobots.length highTaskZones.length) ++
        " idle AMRs to high-task zones: " ++
        String.intercalate ", " (highTaskZones.map Zone.name)]
    else optimizations
  let optimizations :=
    if 0 < highTrafficZones.length then
      optimizations ++ ["Implement traffic control measures in high traffic zones: " ++
        String.intercalate ", " (highTrafficZones.map Zone.name)]
    else optimizations
  let toolsToRedistribute :=
    ((toolCounts d.robots).filter (fun p => ceilDiv d.robots.length 3 < p.2)).map
      (fun p => p.1)
  let optimizations :=
    if 0 < toolsToRedistribute.length then
      optimizations ++ ["Redistribute " ++ String.intercalate ", " toolsToRedistribute ++
        " tools more evenly across AMRs"]
    else optimizations
  let optimizations :=
    if optimizations.length = 0 then
      ["The warehouse is currently operating at optimal efficiency. Continue to monitor for changes."]
    else optimizations
  (some { message := "Here are my optimization recommendations for improving warehouse operations:\n\n" ++
            String.intercalate "\n\n" optimizations,
          response := { title := "Optimization Recommendations",
                        data := RData.overview d.overview, type := "overview",
                        metadata := some { md0 with
                          secondaryData := some (Secondary.strings optimizations) } } }, d)

/-- `LocalAIEngine.handleForecastQuery`.  The float arithmetic of the
source (5 %/hour drain estimate etc.) is modeled exactly over ℤ; where
JS would print `NaN`/`Infinity` on an empty fleet the model prints `0`
(no claim reads those fragments). -/
def handleForecastQuery (_query : List Char) (d : WarehouseDataType) : HResult :=
  let batterySum := (d.robots.map Robot.batteryLevel).sum
  let maintenanceRobots := (d.robots.filter (fun r => r.status == "maintenance")).length
  let chargingRobots := (d.robots.filter (fun r => r.status == "charging")).length
  let timeUntilCritical : Int :=
    roundRat ((batterySum : Int) - 20 * d.robots.length) (5 * d.robots.length)
  let projections : List String :=
    ["Based on current battery levels, approximately " ++
       natStr (roundDiv (d.robots.length * 2) 10) ++
       " AMRs will need charging within the next " ++ intStr timeUntilCritical ++ " hours",
     "At the current rate, approximately " ++ natStr (d.overview.tasksCompleted * 3) ++
       " tasks will be completed in the next 24 hours"]
  let projections :=
    if 0 < maintenanceRobots then
      projections ++ ["If maintenance continues at the current rate, " ++
        natStr maintenanceRobots ++ " AMRs will resume operations in approximately 3 hours"]
    else projections
  let currentEfficiency := d.overview.robotEfficiency
  let projectedEfficiency : Int := currentEfficiency
  let projectedEfficiency :=
    if d.robots.length < 10 * maintenanceRobots then projectedEfficiency + 5
    else projectedEfficiency
  let projectedEfficiency :=
    if d.robots.length < 5 * chargingRobots then projectedEfficiency + 3
    else projectedEfficiency
  let projectedEfficiency :=
    if 0 < d.overview.totalRobots &&
        100 * d.overview.activeRobots < 70 * d.overview.totalRobots then
      projectedEfficiency - 2
    else projectedEfficiency
  let projections := projections ++
    ["Warehouse efficiency is projected to " ++
       (if (currentEfficiency : Int) < projectedEfficiency then "increase" else "decrease") ++
       " to " ++ intStr projectedEfficiency ++ "% in the next 4 hours"]
  let highTaskZones := d.zones.filter (fun z => 5 < z.tasksPending)
  let projections :=
    if 0 < highTaskZones.length then
      let zoneTasks := (highTaskZones.map Zone.tasksPending).sum
      let zoneRobots := (highTaskZones.map Zone.robotCount).sum
      let completionTime := ceilDiv zoneTasks (zoneRobots * 2)
      projections ++ ["High-task zones (" ++
        String.intercalate ", " (highTaskZones.map Zone.name) ++
        ") will require approximately " ++ natStr completionTime ++
        " hours to clear current backlog"]
    else projections
  (some { message := "Based on current warehouse data, here are my projections for the next 24 hours:\n\n" ++
            String.intercalate "\n\n" projections,
          response := { title := "Operational Forecast", data := RData.overview d.overview,
                        type := "overview",
                        metadata := some { md0 with
                          secondaryData := some (Secondary.strings projections) } } }, d)

/-- A `zoneUtilization` entry of `handleUtilizationQuery`: the zone name,
its robot count and its priority-derived capacity (the float utilization
`robotCount / capacity * 100` is kept as this exact pair). -/
structure ZoneUtil where
  name : String
  robotCount : Nat
  capacity : Nat
deriving DecidableEq

/-- `LocalAIEngine.handleUtilizationQuery`. -/
def handleUtilizationQuery (_query : List Char) (d : WarehouseDataType) : HResult :=
  let zoneUtilization : List ZoneUtil := d.zones.map (fun zone =>
    { name := zone.name, robotCount := zone.robotCount,
      capacity := if zone.priority == "high" then 10
        else if zone.priority == "medium" then 8 else 6 })
  let zoneCapacityAnalysis := zoneUtilization.map (fun z =>
    z.name ++ ": " ++ natStr (roundDiv (z.robotCount * 100) z.capacity) ++
      "% utilized (" ++
      natStr ((d.robots.filter (fun r => r.zoneId == z.name)).length) ++ "/" ++
      natStr z.capacity ++ " AMRs)")
  let tools := toolCounts d.robots
  let toolUtilizationAnalysis := tools.map (fun p =>
    p.1 ++ ": " ++ natStr p.2 ++ " AMRs (" ++
      natStr (roundDiv (p.2 * 100) d.robots.length) ++ "% of fleet)")
  let availableCapacity : Int :=
    (d.overview.totalRobots : Int) - d.overview.activeRobots
  let additionalTaskCapacity := availableCapacity * 2
  let sortedZoneUtil := zoneUtilization.jsSort (fun a b =>
    decide (b.robotCount * 100 * a.capacity ≤ a.robotCount * 100 * b.capacity))
  let sortedTools := tools.jsSort (fun a b => decide (b.2 ≤ a.2))
  match sortedZoneUtil with
  | [] => (none, d)
  | topZone :: _ =>
    match sortedTools with
    | [] => (none, d)
    | topTool :: _ =>
    let insights :=
      ["Overall AMR utilization: " ++
         natStr (roundDiv (d.overview.activeRobots * 100) d.overview.totalRobots) ++ "%",
       "Available capacity: " ++ intStr availableCapacity ++ " AMRs",
       "Estimated additional task capacity: " ++ intStr additionalTaskCapacity ++ " tasks",
       "Most utilized zone: " ++ topZone.name,
       "Most common tool: " ++ topTool.1]
    (some { message := "Current warehouse utilization analysis:\n\n" ++
              "Robot Utilization: " ++
              natStr (roundDiv (d.overview.activeRobots * 100) d.overview.totalRobots) ++
              "% of total fleet\n\n" ++
              "Zone Utilization:\n" ++ String.intercalate "\n" zoneCapacityAnalysis ++
              "\n\n" ++
              "Tool Distribution:\n" ++ String.intercalate "\n" toolUtilizationAnalysis ++
              "\n\n" ++
              "The warehouse has capacity for approximately " ++
              intStr additionalTaskCapacity ++
              " additional tasks with the current resource allocation.",
            response := { title := "Utilization & Capacity Analysis",
                          data := RData.overview d.overview, type := "overview",
                          metadata := some { md0 with
                            secondaryData := some (Secondary.strings insights),
                            chartData := some (zoneUtilization.foldl
                              (fun result zone =>
                                recSetG result zone.name
                                  (roundDiv (zone.robotCount * 100) zone.capacity)) []) } } },
     d)

/-- The zone priority score used by the scheduling sort. -/
def prioScore (z : Zone) : Nat :=
  if z.priority == "high" then 3 else if z.priority == "medium" then 2 else 1

/-- Comparator of `zonesWithTasks` (`le a b` ↔ JS comparator ≤ 0):
descending priority score, then descending pending tasks. -/
def zoneSchedLe (a b : Zone) : Bool :=
  decide (prioScore b < prioScore a) ||
    (prioScore b == prioScore a && decide (b.tasksPending ≤ a.tasksPending))

/-- Assignment loop of the scheduling handler: walk the prioritized
zones, assigning up to `tasksPending` of the remaining idle robots. -/
def schedAssignLoop : List Zone → List Robot → List (String × List String) →
    List (String × List String)
  | [], _, asg => asg
  | zone :: rest, remainingIdleRobots, asg =>
    let asg := if (recGetG asg zone.name).isSome then asg else recSetG asg zone.name []
    let robotsNeeded := min zone.tasksPending remainingIdleRobots.length
    let assignedRobots := remainingIdleRobots.take robotsNeeded
    let asg :=
      if 0 < robotsNeeded then
        recSetG asg zone.name (((recGetG asg zone.name).getD []) ++
          assignedRobots.map (fun r => "AMR " ++ natStr r.id))
      else asg
    let remainingIdleRobots := remainingIdleRobots.drop robotsNeeded
    if remainingIdleRobots.length = 0 then asg
    else schedAssignLoop rest remainingIdleRobots asg

/-- `LocalAIEngine.handleSchedulingQuery`; `now` is the wall-clock
minute counter (`new Date()` of the source). -/
def handleSchedulingQuery (_query : List Char) (d : WarehouseDataType) (now : Nat) : HResult :=
  let lowBatteryRobots := d.robots.filter (fun r =>
    r.batteryLevel < 30 && !(r.status == "charging"))
  let maintenanceRobots := d.robots.filter (fun r => r.status == "maintenance")
  let idleRobots := d.robots.filter (fun r => r.status == "idle")
  let zonesWithTasks :=
    (d.zones.filter (fun z => 0 < z.tasksPending)).jsSort zoneSchedLe
  let schedule : List String := []
  let schedule :=
    if 0 < lowBatteryRobots.length then
      schedule ++ ["Immediate charging: " ++
        String.intercalate ", " (lowBatteryRobots.map (fun r =>
          "AMR " ++ natStr r.id ++ " (" ++ natStr r.batteryLevel ++ "%)"))]
    else schedule
  let robotAssignments := schedAssignLoop zonesWithTasks idleRobots []
  let schedule := robotAssignments.foldl
    (fun sch p =>
      if 0 < p.2.length then
        match d.zones.find? (fun z => z.name == p.1) with
        | some zone =>
          sch ++ ["Assign " ++ String.intercalate ", " p.2 ++ " to " ++ p.1 ++
            " for " ++ natStr zone.tasksPending ++ " pending tasks"]
        | none => sch
      else sch) schedule
  let schedule :=
    if 0 < maintenanceRobots.length then
      schedule ++ ["Maintenance completion (estimated 3 hours): " ++
        String.intercalate ", " (maintenanceRobots.map (fun r => "AMR " ++ natStr r.id))]
    else schedule
  let schedule :=
    if schedule.length = 0 then
      ["No immediate scheduling actions required. All AMRs are appropriately assigned."]
    else schedule
  let timeSchedule := schedule.enum.map (fun p =>
    padTwo ((now + 30 * p.1) / 60 % 24) ++ ":" ++ padTwo ((now + 30 * p.1) % 60) ++
      " - " ++ p.2)
  (some { message := "Here is the recommended schedule for the next few hours:\n\n" ++
            String.intercalate "\n\n" timeSchedule,
          response := { title := "AMR Schedule Recommendation",
                        data := RData.zones zonesWithTasks, type := "multi-zone",
                        metadata := some { md0 with
                          secondaryData := some (Secondary.strings timeSchedule) } } }, d)

/-- `LocalAIEngine.handleAllRobotsQuery`. -/
def handleAllRobotsQuery (query : List Char) (d : WarehouseDataType) : HResult :=
  if batteryPattern query then
    let sortedRobots := d.robots.jsSort (fun a b => decide (b.batteryLevel ≤ a.batteryLevel))
    (some { message := "Here are all " ++ natStr d.robots.length ++
              " AMRs in the warehouse, sorted by batteryLevel.",
            response := { title := "All Robots by BatteryLevel",
                          data := RData.robots sortedRobots, type := "multi-robot",
                          metadata := none } }, d)
  else if efficiencyPattern query then
    let sortedRobots := d.robots.jsSort (fun a b => decide (b.efficiency ≤ a.efficiency))
    (some { message := "Here are all " ++ natStr d.robots.length ++
              " AMRs in the warehouse, sorted by efficiency.",
            response := { title := "All Robots by Efficiency",
                          data := RData.robots sortedRobots, type := "multi-robot",
                          metadata := none } }, d)
  else if statusPattern query then
    let statusCounts :=
      [("active", (d.robots.filter (fun r => r.status == "active")).length),
       ("idle", (d.robots.filter (fun r => r.status == "idle")).length),
       ("charging", (d.robots.filter (fun r => r.status == "charging")).length),
       ("maintenance", (d.robots.filter (fun r => r.status == "maintenance")).length)]
    (some { message := "There are " ++ natStr d.robots.length ++
              " AMRs in the warehouse: " ++
              natStr (d.robots.filter (fun r => r.status == "active")).length ++
              " active, " ++
              natStr (d.robots.filter (fun r => r.status == "idle")).length ++
              " idle, " ++
              natStr (d.robots.filter (fun r => r.status == "charging")).length ++
              " charging, and " ++
              natStr (d.robots.filter (fun r => r.status == "maintenance")).length ++
              " in maintenance.",
            response := { title := "All Robots by Status", data := RData.robots d.robots,
                          type := "multi-robot",
                          metadata := some { md0 with
                            metricName := some "Status",
                            chartData := some statusCounts } } }, d)
  else
    (some { message := "Here are all " ++ natStr d.robots.length ++
              " AMRs in the warehouse.",
            response := { title := "All Robots", data := RData.robots d.robots,
                          type := "multi-robot", metadata := none } }, d)

/-- The `priorityValue` / `densityValue` map of the all-zones sorts
(an unknown tier, JS `undefined`, is modeled as 0). -/
def tierValue (s : String) : Nat :=
  if s == "high" then 3 else if s == "medium" then 2 else if s == "low" then 1 else 0

/-- `LocalAIEngine.handleAllZonesQuery`. -/
def handleAllZonesQuery (query : List Char) (d : WarehouseDataType) : HResult :=
  if efficiencyPattern query then
    let sortedZones := d.zones.jsSort (fun a b => decide (b.efficiency ≤ a.efficiency))
    (some { message := "Here are all " ++ natStr d.zones.length ++
              " zones in the warehouse, sorted by efficiency.",
            response := { title := "All Zones by Efficiency",
                          data := RData.zones sortedZones, type := "multi-zone",
                          metadata := none } }, d)
  else if priorityPattern query then
    let sortedZones := d.zones.jsSort (fun a b =>
      decide (tierValue b.priority ≤ tierValue a.priority))
    (some { message := "Here are all " ++ natStr d.zones.length ++
              " zones in the warehouse, sorted by priority.",
            response := { title := "All Zones by Priority",
                          data := RData.zones sortedZones, type := "multi-zone",
                          metadata := none } }, d)
  else if trafficPattern query then
    let sortedZones := d.zones.jsSort (fun a b =>
      decide (tierValue b.trafficDensity ≤ tierValue a.trafficDensity))
    (some { message := "Here are all " ++ natStr d.zones.length ++
              " zones in the warehouse, sorted by traffic density.",
            response := { title := "All Zones by Traffic density",
                          data := RData.zones sortedZones, type := "multi-zone",
                          metadata := none } }, d)
  else
    (some { message := "Here are all " ++ natStr d.zones.length ++
              " zones in the warehouse.",
            response := { title := "All Zones", data := RData.zones d.zones,
                          type := "multi-zone", metadata := none } }, d)

/-- The comparison attribute selection of `handleComparisonQuery`
(battery → efficiency → status → tool → priority → traffic, defaulting
to efficiency). -/
def comparisonAttribute (query : List Char) : String :=
  if batteryPattern query then "batteryLevel"
  else if efficiencyPattern query then "efficiency"
  else if statusPattern query then "status"
  else if toolPattern query then "currentTool"
  else if priorityPattern query then "priority"
  else if trafficPattern query then "trafficDensity"
  else "efficiency"

/-- `LocalAIEngine.handleComparisonQuery`. -/
def handleComparisonQuery (query : List Char) (d : WarehouseDataType) : HResult :=
  let isRobotComparison := hasSubstr query "robot".data || hasSubstr query "amr".data
  let isZoneComparison := hasSubstr query "zone".data
  let attrName := comparisonAttribute query
  if isRobotComparison then
    let sortedRobots :=
      if attrName == "batteryLevel" then
        d.robots.jsSort (fun a b => decide (b.batteryLevel ≤ a.batteryLevel))
      else if attrName == "efficiency" then
        d.robots.jsSort (fun a b => decide (b.efficiency ≤ a.efficiency))
      else d.robots
    if attrName == "status" then
      let statusCounts :=
        [("active", (d.robots.filter (fun r => r.status == "active")).length),
         ("idle", (d.robots.filter (fun r => r.status == "idle")).length),
         ("charging", (d.robots.filter (fun r => r.status == "charging")).length),
         ("maintenance", (d.robots.filter (fun r => r.status == "maintenance")).length)]
      (some { message := "Comparing AMRs by status: " ++
                natStr (d.robots.filter (fun r => r.status == "active")).length ++
                " active, " ++
                natStr (d.robots.filter (fun r => r.status == "idle")).length ++
                " idle, " ++
                natStr (d.robots.filter (fun r => r.status == "charging")).length ++
                " charging, and " ++
                natStr (d.robots.filter (fun r => r.status == "maintenance")).length ++
                " in maintenance.",
              response := { title := "Robot Status Comparison",
                            data := RData.robots sortedRobots, type := "comparison",
                            metadata := some { md0 with
                              comparisonType := some "Robot",
                              metricName := some "Status",
                              chartData := some statusCounts } } }, d)
    else if attrName == "currentTool" then
      (some { message := "Comparing AMRs by current tool: " ++
                String.intercalate ", " ((toolCounts d.robots).map (fun p =>
                  natStr p.2 ++ " using " ++ p.1)) ++ ".",
              response := { title := "Robot Tool Comparison",
                            data := RData.robots sortedRobots, type := "comparison",
                            metadata := some { md0 with
                              comparisonType := some "Robot",
                              metricName := some "Tool",
                              chartData := some (toolCounts d.robots) } } }, d)
    else
      let readableAttribute :=
        if attrName == "batteryLevel" then "Battery Level" else "Efficiency"
      match sortedRobots with
      | [] => (none, d)
      | top :: _ =>
        let value := if attrName == "batteryLevel" then top.batteryLevel else top.efficiency
        (some { message := "Comparing AMRs by " ++ strLower readableAttribute ++
                  ". The highest is AMR " ++ natStr top.id ++ " at " ++ natStr value ++
                  (if attrName == "batteryLevel" then "%" else "% efficiency") ++ ".",
                response := { title := "Robot " ++ readableAttribute ++ " Comparison",
                              data := RData.robots sortedRobots, type := "comparison",
                              metadata := some { md0 with
                                comparisonType := some "Robot",
                                metricName := some readableAttribute } } }, d)
  else if isZoneComparison then
    let sortedZones :=
      if attrName == "efficiency" then
        d.zones.jsSort (fun a b => decide (b.efficiency ≤ a.efficiency))
      else d.zones
    if attrName == "priority" || attrName == "trafficDensity" then
      let categoryCounts :=
        if attrName == "priority" then
          [("high", (d.zones.filter (fun z => z.priority == "high")).length),
           ("medium", (d.zones.filter (fun z => z.priority == "medium")).length),
           ("low", (d.zones.filter (fun z => z.priority == "low")).length)]
        else
          [("high", (d.zones.filter (fun z => z.trafficDensity == "high")).length),
           ("medium", (d.zones.filter (fun z => z.trafficDensity == "medium")).length),
           ("low", (d.zones.filter (fun z => z.trafficDensity == "low")).length)]
      let readableAttribute := if attrName == "priority" then "Priority" else "Traffic Density"
      (some { message := "Comparing zones by " ++ strLower readableAttribute ++ ": " ++
                natStr ((recGetG categoryCounts "high").getD 0) ++ " high, " ++
                natStr ((recGetG categoryCounts "medium").getD 0) ++ " medium, and " ++
                natStr ((recGetG categoryCounts "low").getD 0) ++ " low.",
              response := { title := "Zone " ++ readableAttribute ++ " Comparison",
                            data := RData.zones sortedZones, type := "comparison",
                            metadata := some { md0 with
                              comparisonType := some "Zone",
                              metricName := some readableAttribute,
                              chartData := some categoryCounts } } }, d)
    else
      match sortedZones with
      | [] => (none, d)
      | top :: _ =>
        (some { message := "Comparing zones by efficiency. The most efficient is " ++
                  top.name ++ " at " ++ natStr top.efficiency ++ "%.",
                response := { title := "Zone Efficiency Comparison",
                              data := RData.zones sortedZones, type := "comparison",
                              metadata := some { md0 with
                                comparisonType := some "Zone",
                                metricName := some "Efficiency" } } }, d)
  else
    (some { message := "I'm not sure what you want to compare. You can compare robots by battery level, efficiency, status, or tool, or zones by priority, traffic density, or efficiency.",
            response := { title := "Comparison", data := RData.null, type := "error",
                          metadata := none } }, d)

/-- `LocalAIEngine.handleCountQuery`. -/
def handleCountQuery (query : List Char) (d : WarehouseDataType) : HResult :=
  if hasSubstr query "robot".data || hasSubstr query "amr".data then
    let activeCount := (d.robots.filter (fun r => r.status == "active")).length
    let idleCount := (d.robots.filter (fun r => r.status == "idle")).length
    let chargingCount := (d.robots.filter (fun r => r.status == "charging")).length
    let maintenanceCount := (d.robots.filter (fun r => r.status == "maintenance")).length
    (some { message := "There are " ++ natStr d.robots.length ++
              " total AMRs in the warehouse: " ++ natStr activeCount ++ " active, " ++
              natStr idleCount ++ " idle, " ++ natStr chargingCount ++
              " charging, and " ++ natStr maintenanceCount ++ " in maintenance.",
            response := { title := "Robot Count", data := RData.overview d.overview,
                          type := "overview",
                          metadata := some { md0 with
                            secondaryData := some (Secondary.numRecord
                              [("Active", activeCount), ("Idle", idleCount),
                               ("Charging", chargingCount),
                               ("Maintenance", maintenanceCount)]) } } }, d)
  else if hasSubstr query "zone".data then
    let highPriorityCount := (d.zones.filter (fun z => z.priority == "high")).length
    let mediumPriorityCount := (d.zones.filter (fun z => z.priority == "medium")).length
    let lowPriorityCount := (d.zones.filter (fun z => z.priority == "low")).length
    (some { message := "There are " ++ natStr d.zones.length ++
              " total zones in the warehouse: " ++ natStr highPriorityCount ++
              " high priority, " ++ natStr mediumPriorityCount ++
              " medium priority, and " ++ natStr lowPriorityCount ++ " low priority.",
            response := { title := "Zone Count", data := RData.zones d.zones,
                          type := "multi-zone",
                          metadata := some { md0 with
                            chartData := some
                              [("High Priority", highPriorityCount),
                               ("Medium Priority", mediumPriorityCount),
                               ("Low Priority", lowPriorityCount)] } } }, d)
  else if hasSubstr query "task".data then
    let totalPendingTasks := (d.zones.map Zone.tasksPending).sum
    (some { message := "There are " ++ natStr totalPendingTasks ++
              " pending tasks and " ++ natStr d.overview.tasksCompleted ++
              " completed tasks today across all zones.",
            response := { title := "Task Count", data := RData.overview d.overview,
                          type := "overview",
                          metadata := some { md0 with
                            secondaryData := some (Secondary.numRecord
                              [("Pending Tasks", totalPendingTasks),
                               ("Completed Tasks", d.overview.tasksCompleted)]) } } }, d)
  else
    (some { message := "The warehouse has " ++ natStr d.overview.totalRobots ++
              " total AMRs (" ++ natStr d.overview.activeRobots ++ " active) and " ++
              natStr d.zones.length ++ " zones with a total of " ++
              natStr ((d.zones.map Zone.tasksPending).sum) ++ " pending tasks.",
            response := { title := "Warehouse Count Summary",
                          data := RData.overview d.overview, type := "overview",
                          metadata := none } }, d)

/-- `LocalAIEngine.handlePriorityQuery`. -/
def handlePriorityQuery (query : List Char) (d : WarehouseDataType) : HResult :=
  if highestPattern query then
    match d.zones.filter (fun z => z.priority == "high") with
    | [] =>
      (some { message := "There are no high priority zones in the warehouse currently.",
              response := { title := "High Priority Zones", data := RData.null,
                            type := "error", metadata := none } }, d)
    | z :: zs =>
      (some { message := "There are " ++ natStr (z :: zs).length ++
                " high priority zones: " ++
                String.intercalate ", " ((z :: zs).map Zone.name) ++
                ". These zones have a total of " ++
                natStr (((z :: zs).map Zone.tasksPending).sum) ++ " pending tasks.",
              response := { title := "High Priority Zones", data := RData.zones (z :: zs),
                            type := "multi-zone", metadata := none } }, d)
  else if lowestPattern query then
    match d.zones.filter (fun z => z.priority == "low") with
    | [] =>
      (some { message := "There are no low priority zones in the warehouse currently.",
              response := { title := "Low Priority Zones", data := RData.null,
                            type := "error", metadata := none } }, d)
    | z :: zs =>
      (some { message := "There are " ++ natStr (z :: zs).length ++
                " low priority zones: " ++
                String.intercalate ", " ((z :: zs).map Zone.name) ++
                ". These zones have a total of " ++
                natStr (((z :: zs).map Zone.tasksPending).sum) ++ " pending tasks.",
              response := { title := "Low Priority Zones", data := RData.zones (z :: zs),
                            type := "multi-zone", metadata := none } }, d)
  else
    let highPriorityZones := d.zones.filter (fun z => z.priority == "high")
    let mediumPriorityZones := d.zones.filter (fun z => z.priority == "medium")
    let lowPriorityZones := d.zones.filter (fun z => z.priority == "low")
    (some { message := "The warehouse has " ++ natStr highPriorityZones.length ++
              " high priority zones, " ++ natStr mediumPriorityZones.length ++
              " medium priority zones, and " ++ natStr lowPriorityZones.length ++
              " low priority zones.",
            response := { title := "Zones by Priority", data := RData.zones d.zones,
                          type := "multi-zone",
                          metadata := some { md0 with
                            metricName := some "Priority",
                            chartData := some
                              [("High", highPriorityZones.length),
                               ("Medium", mediumPriorityZones.length),
                               ("Low", lowPriorityZones.length)] } } }, d)

/-- `LocalAIEngine.handleTrafficQuery`. -/
def handleTrafficQuery (query : List Char) (d : WarehouseDataType) : HResult :=
  if highestPattern query then
    match d.zones.filter (fun z => z.trafficDensity == "high") with
    | [] =>
      (some { message := "There are no high traffic zones in the warehouse currently.",
              response := { title := "High Traffic Zones", data := RData.null,
                            type := "error", metadata := none } }, d)
    | z :: zs =>
      (some { message := "There are " ++ natStr (z :: zs).length ++
                " high traffic zones: " ++
                String.intercalate ", " ((z :: zs).map Zone.name) ++
                ". These zones might experience congestion with " ++
                natStr (((z :: zs).map Zone.robotCount).sum) ++ " active robots.",
              response := { title := "High Traffic Zones", data := RData.zones (z :: zs),
                            type := "multi-zone", metadata := none } }, d)
  else if lowestPattern query then
    match d.zones.filter (fun z => z.trafficDensity == "low") with
    | [] =>
      (some { message := "There are no low traffic zones in the warehouse currently.",
              response := { title := "Low Traffic Zones", data := RData.null,
                            type := "error", metadata := none } }, d)
    | z :: zs =>
      (some { message := "There are " ++ natStr (z :: zs).length ++
                " low traffic zones: " ++
                String.intercalate ", " ((z :: zs).map Zone.name) ++
                ". These zones have good flow with " ++
                natStr (((z :: zs).map Zone.robotCount).sum) ++ " active robots.",
              response := { title := "Low Traffic Zones", data := RData.zones (z :: zs),
                            type := "multi-zone", metadata := none } }, d)
  else
    let highTrafficZones := d.zones.filter (fun z => z.trafficDensity == "high")
    let mediumTrafficZones := d.zones.filter (fun z => z.trafficDensity == "medium")
    let lowTrafficZones := d.zones.filter (fun z => z.trafficDensity == "low")
    (some { message := "The warehouse has " ++ natStr highTrafficZones.length ++
              " high traffic zones, " ++ natStr mediumTrafficZones.length ++
              " medium traffic zones, and " ++ natStr lowTrafficZones.length ++
              " low traffic zones.",
            response := { title := "Zones by Traffic", data := RData.zones d.zones,
                          type := "multi-zone",
                          metadata := some { md0 with
                            metricName := some "Traffic Density",
                            chartData := some
                              [("High", highTrafficZones.length),
                               ("Medium", mediumTrafficZones.length),
                               ("Low", lowTrafficZones.length)] } } }, d)

/-! ### The router (`processQuery`'s sequential `if` chain) -/

/-- The intent selected by `processQuery` for a normalized query: the
first test of its fixed `if` sequence that fires. -/
inductive Route
  | complex
  | robot (id : Nat)
  | zone (letter : Char)
  | deployment
  | optimization
  | forecast
  | utilization
  | allRobots
  | allZones
  | comparison
  | counting
  | priorityR
  | trafficR
  | overviewR
  | efficiencyR
  | statusR
  | maintenanceR
  | batteryR
  | multiLocation
  | scheduling
  | fallback
deriving DecidableEq

/-- The dispatch decision of `LocalAIEngine.processQuery`, in the
source's order. -/
def routeRest (nq : List Char) : Route :=
  match robotIdMatch nq with
  | some id => .robot id
  | none =>
    match zoneLetterMatch nq with
    | some c => .zone c
    | none =>
      if deploymentPattern nq || redistributePattern nq then .deployment
      else if optimizePattern nq then .optimization
      else if forecastPattern nq || trendPattern nq then .forecast
      else if utilizationPattern nq || capacityPattern nq then .utilization
      else if allRobotsPattern nq then .allRobots
      else if allZonesPattern nq then .allZones
      else if comparePattern nq then .comparison
      else if countPattern nq then .counting
      else if priorityPattern nq then .priorityR
      else if trafficPattern nq then .trafficR
      else if overviewPattern nq then .overviewR
      else if efficiencyPattern nq then .efficiencyR
      else if statusPattern nq then .statusR
      else if maintenancePattern nq then .maintenanceR
      else if batteryPattern nq then .batteryR
      else if locationPattern nq &&
          (hasSubstr nq "robots".data || hasSubstr nq "amrs".data) then .multiLocation
      else if schedulePattern nq then .scheduling
      else .fallback

def route (nq : List Char) : Route :=
  if isComplexQuery nq then .complex else routeRest nq

/-- `LocalAIEngine.processQuery`.  `now` is the wall-clock minute counter
read by the scheduling handler.  The first component is the produced
`{message, response}` (`none` models a thrown `TypeError`), the second
the snapshot left behind by the call. -/
def dispatchQuery (nq : List Char) (d : WarehouseDataType) (now : Nat) : HResult :=
  match route nq with
  | .complex => handleComplexQuery nq d
  | .robot id => handleRobotQuery id nq d
  | .zone letter => handleZoneQuery letter nq d
  | .deployment => handleDeploymentQuery nq d
  | .optimization => handleOptimizationQuery nq d
  | .forecast => handleForecastQuery nq d
  | .utilization => handleUtilizationQuery nq d
  | .allRobots => handleAllRobotsQuery nq d
  | .allZones => handleAllZonesQuery nq d
  | .comparison => handleComparisonQuery nq d
  | .counting => handleCountQuery nq d
  | .priorityR => handlePriorityQuery nq d
  | .trafficR => handleTrafficQuery nq d
  | .overviewR => handleOverviewQuery nq d
  | .efficiencyR => handleEfficiencyQuery nq d
  | .statusR => handleStatusQuery nq d
  | .maintenanceR => handleMaintenanceQuery nq d
  | .batteryR => handleBatteryQuery nq d
  | .multiLocation => handleMultiRobotLocationQuery nq d
  | .scheduling => handleSchedulingQuery nq d now
  | .fallback =>
    (some { message := "I'm not sure how to answer that question. You can ask me about specific AMRs (e.g., \"Where is AMR 03?\"), zones (e.g., \"Show Zone B status\"), or general warehouse information like efficiency or maintenance needs. You can also ask to compare robots or zones, see all robots or zones, get counts, or check priority or traffic information. For more complex operations, try asking about optimizing workflows, deploying robots, or forecasting capacity needs.",
            response := { title := "AI Response", data := RData.null, type := "error",
                          metadata := none } }, d)

/-- `LocalAIEngine.processQuery`: normalize the query, then dispatch on
the first matching detector of the fixed sequence. -/
def processQuery (query : String) (d : WarehouseDataType) (now : Nat) : HResult :=
  dispatchQuery (normalize query) d now

/-! ### Character and digit-string lemmas -/

theorem digit_beq_false {d c : Char} (hd : d.isDigit = true) (hc : c.isDigit = false) :
    (d == c) = false := by
  apply beq_eq_false_iff_ne.mpr
  intro h
  subst h
  rw [hd] at hc
  cases hc

theorem wsChar_digit {c : Char} (h : c.isDigit = true) : wsChar c = false := by
  simp [wsChar, digit_beq_false h (by decide : (' ').isDigit = false),
    digit_beq_false h (by decide : ('\t').isDigit = false),
    digit_beq_false h (by decide : ('\n').isDigit = false),
    digit_beq_false h (by decide : ('\r').isDigit = false)]

theorem isWordChar_digit {c : Char} (h : c.isDigit = true) : isWordChar c = true := by
  simp [isWordChar, Char.isAlphanum, h]

theorem digitChar_isDigit {k : Nat} (h : k < 10) : (digitChar k).isDigit = true := by
  interval_cases k <;> decide

theorem digitChar_toNat {k : Nat} (h : k < 10) : (digitChar k).toNat = 48 + k := by
  interval_cases k <;> decide

theorem digitChar_toLower {k : Nat} (h : k < 10) : (digitChar k).toLower = digitChar k := by
  interval_cases k <;> decide

theorem natDigitsAux_congr :
    ∀ (f1 : Nat), ∀ (f2 n : Nat), n < f1 → n < f2 →
      natDigitsAux f1 n = natDigitsAux f2 n := by
  intro f1
  induction f1 with
  | zero => intro f2 n h1 _; omega
  | succ f ih =>
    intro f2 n h1 h2
    cases f2 with
    | zero => omega
    | succ g =>
      show natDigitsAux (f + 1) n = natDigitsAux (g + 1) n
      by_cases hn : n < 10
      · simp [natDigitsAux, hn]
      · have hd : n / 10 < n := Nat.div_lt_self (by omega) (by omega)
        simp only [natDigitsAux, if_neg hn]
        rw [ih g (n / 10) (by omega) (by omega)]

/-- Recursion equation for `natDigits`, recovering the direct form. -/
theorem natDigits_eq (n : Nat) :
    natDigits n = if n < 10 then [digitChar n]
      else natDigits (n / 10) ++ [digitChar (n % 10)] := by
  show natDigitsAux (n + 1) n = _
  by_cases hn : n < 10
  · simp [natDigitsAux, hn]
  · have hd : n / 10 < n := Nat.div_lt_self (by omega) (by omega)
    simp only [natDigitsAux, if_neg hn]
    rw [natDigitsAux_congr n (n / 10 + 1) (n / 10) (by omega) (by omega)]
    rfl

theorem natDigits_all (n : Nat) : (natDigits n).all Char.isDigit = true := by
  induction n using Nat.strong_induction_on with
  | _ n ih =>
    rw [natDigits_eq]
    split
    · rename_i h
      simp [digitChar_isDigit h]
    · rename_i h
      rw [List.all_append]
      have h1 := ih (n / 10) (Nat.div_lt_self (by omega) (by omega))
      simp [h1, digitChar_isDigit (Nat.mod_lt _ (by omega))]

theorem natDigits_ne_nil (n : Nat) : natDigits n ≠ [] := by
  rw [natDigits_eq]
  split
  · simp
  · simp

theorem natDigits_map_toLower (n : Nat) : (natDigits n).map Char.toLower = natDigits n := by
  induction n using Nat.strong_induction_on with
  | _ n ih =>
    rw [natDigits_eq]
    split
    · rename_i h
      simp [digitChar_toLower h]
    · rename_i h
      have h1 := ih (n / 10) (Nat.div_lt_self (by omega) (by omega))
      simp [h1, digitChar_toLower (Nat.mod_lt _ (by omega))]

theorem parseNat_append_one (xs : List Char) (c : Char) :
    parseNat (xs ++ [c]) = 10 * parseNat xs + (c.toNat - 48) := by
  unfold parseNat
  rw [List.foldl_append]
  rfl

theorem parseNat_natDigits (n : Nat) : parseNat (natDigits n) = n := by
  induction n using Nat.strong_induction_on with
  | _ n ih =>
    rw [natDigits_eq]
    split
    · rename_i h
      show parseNat [digitChar n] = n
      unfold parseNat
      simp [digitChar_toNat h]
    · rename_i h
      rw [parseNat_append_one, ih (n / 10) (Nat.div_lt_self (by omega) (by omega)),
        digitChar_toNat (Nat.mod_lt _ (by omega))]
      omega

theorem data_amr : "amr".data = ['a', 'm', 'r'] := rfl

theorem data_robot : "robot".data = ['r', 'o', 'b', 'o', 't'] := rfl

theorem data_zone : "zone".data = ['z', 'o', 'n', 'e'] := rfl

/-- No keyword starting with a non-digit character has a word-boundary
match inside a run of digits. -/
theorem hasWord_nodigit (w0 : Char) (w' : List Char) (h0 : w0.isDigit = false) :
    ∀ (s : List Char) (b : Bool), s.all Char.isDigit = true →
      hasWord s (w0 :: w') b = false := by
  intro s
  induction s with
  | nil => intro b _; rfl
  | cons c cs ih =>
    intro b hall
    have hc : c.isDigit = true := by
      have h2 := hall
      simp only [List.all_cons, Bool.and_eq_true] at h2
      exact h2.1
    have hcs : cs.all Char.isDigit = true := by
      have h2 := hall
      simp only [List.all_cons, Bool.and_eq_true] at h2
      exact h2.2
    simp [hasWord, wordHere, listStartsWith, digit_beq_false hc h0, ih _ hcs]

/-- A bounded scanner whose head test fails on every all-digit suffix
fails on an all-digit string. -/
theorem scanBound_digits {α : Type} (f : List Char → Option α)
    (hf : ∀ t, t.all Char.isDigit = true → f t = none) :
    ∀ (s : List Char) (b : Bool), s.all Char.isDigit = true →
      scanBound f s b = none := by
  intro s
  induction s with
  | nil => intro b _; rfl
  | cons c cs ih =>
    intro b hall
    have hcs : cs.all Char.isDigit = true := by
      have h2 := hall
      simp only [List.all_cons, Bool.and_eq_true] at h2
      exact h2.2
    rw [scanBound]
    rw [hf (c :: cs) hall]
    simp [ih _ hcs]

/-- Well-formedness of a keyword relative to a query prefix: non-empty,
free of digits, and different from the prefix's own letter run. -/
def wordOkay (avoid : List Char) (w : String) : Bool :=
  !w.data.isEmpty && w.data.all (fun c => !c.isDigit) && !(w.data == avoid)

/-- No keyword other than the literal `amr` matches with a word boundary
at the head of `"amr " ++ digits`. -/
theorem wordHere_amr (w : List Char) (ds : List Char)
    (hds : ds.all Char.isDigit = true) (hdne : ds ≠ [])
    (hw : w.all (fun c => !c.isDigit) = true) (hne : w ≠ ['a', 'm', 'r']) :
    wordHere ('a' :: 'm' :: 'r' :: ' ' :: ds) w = false := by
  obtain ⟨e, dt, hdt⟩ : ∃ e dt, ds = e :: dt := by
    cases ds with
    | nil => exact absurd rfl hdne
    | cons a b => exact ⟨a, b, rfl⟩
  have he : e.isDigit = true := by
    subst hdt
    exact (List.all_eq_true.mp hds) e (by simp)
  subst hdt
  match w with
  | [] => simp [wordHere, isWordChar]
  | [c0] => simp [wordHere, listStartsWith, isWordChar]
  | [c0, c1] => simp [wordHere, listStartsWith, isWordChar]
  | [c0, c1, c2] =>
    by_cases h0 : c0 = 'a'
    · subst h0
      by_cases h1 : c1 = 'm'
      · subst h1
        by_cases h2 : c2 = 'r'
        · exact absurd (by rw [h2]) hne
        · simp [wordHere, listStartsWith, beq_eq_false_iff_ne.mpr (Ne.symm h2)]
      · simp [wordHere, listStartsWith, beq_eq_false_iff_ne.mpr (Ne.symm h1)]
    · simp [wordHere, listStartsWith, beq_eq_false_iff_ne.mpr (Ne.symm h0)]
  | c0 :: c1 :: c2 :: c3 :: w4 =>
    cases w4 with
    | nil => simp [wordHere, listStartsWith, isWordChar_digit he]
    | cons c4 w5 =>
      have hc4 : c4.isDigit = false := by
        have := (List.all_eq_true.mp hw) c4 (by simp)
        simpa using this
      simp [wordHere, listStartsWith, digit_beq_false he hc4]

/-- No keyword other than the literal `robot` matches with a word
boundary at the head of `"robot " ++ digits`. -/
theorem wordHere_robot (w : List Char) (ds : List Char)
    (hds : ds.all Char.isDigit = true) (hdne : ds ≠ [])
    (hw : w.all (fun c => !c.isDigit) = true)
    (hne : w ≠ ['r', 'o', 'b', 'o', 't']) :
    wordHere ('r' :: 'o' :: 'b' :: 'o' :: 't' :: ' ' :: ds) w = false := by
  obtain ⟨e, dt, hdt⟩ : ∃ e dt, ds = e :: dt := by
    cases ds with
    | nil => exact absurd rfl hdne
    | cons a b => exact ⟨a, b, rfl⟩
  have he : e.isDigit = true := by
    subst hdt
    exact (List.all_eq_true.mp hds) e (by simp)
  subst hdt
  match w with
  | [] => simp [wordHere, isWordChar]
  | [c0] => simp [wordHere, listStartsWith, isWordChar]
  | [c0, c1] => simp [wordHere, listStartsWith, isWordChar]
  | [c0, c1, c2] => simp [wordHere, listStartsWith, isWordChar]
  | [c0, c1, c2, c3] => simp [wordHere, listStartsWith, isWordChar]
  | [c0, c1, c2, c3, c4] =>
    by_cases h0 : c0 = 'r'
    · subst h0
      by_cases h1 : c1 = 'o'
      · subst h1
        by_cases h2 : c2 = 'b'
        · subst h2
          by_cases h3 : c3 = 'o'
          · subst h3
            by_cases h4 : c4 = 't'
            · exact absurd (by rw [h4]) hne
            · simp [wordHere, listStartsWith, beq_eq_false_iff_ne.mpr (Ne.symm h4)]
          · simp [wordHere, listStartsWith, beq_eq_false_iff_ne.mpr (Ne.symm h3)]
        · simp [wordHere, listStartsWith, beq_eq_false_iff_ne.mpr (Ne.symm h2)]
      · simp [wordHere, listStartsWith, beq_eq_false_iff_ne.mpr (Ne.symm h1)]
    · simp [wordHere, listStartsWith, beq_eq_false_iff_ne.mpr (Ne.symm h0)]
  | c0 :: c1 :: c2 :: c3 :: c4 :: c5 :: w6 =>
    cases w6 with
    | nil => simp [wordHere, listStartsWith, isWordChar_digit he]
    | cons c6 w7 =>
      have hc6 : c6.isDigit = false := by
        have := (List.all_eq_true.mp hw) c6 (by simp)
        simpa using this
      simp [wordHere, listStartsWith, digit_beq_false he hc6]

theorem hasWord_amr (w : List Char) (ds : List Char)
    (hds : ds.all Char.isDigit = true) (hdne : ds ≠ [])
    (hwne : w ≠ []) (hw : w.all (fun c => !c.isDigit) = true)
    (hne : w ≠ ['a', 'm', 'r']) :
    hasWord ('a' :: 'm' :: 'r' :: ' ' :: ds) w false = false := by
  obtain ⟨w0, w', hw0⟩ : ∃ w0 w', w = w0 :: w' := by
    cases w with
    | nil => exact absurd rfl hwne
    | cons a b => exact ⟨a, b, rfl⟩
  have h0 : w0.isDigit = false := by
    have := (List.all_eq_true.mp hw) w0 (by rw [hw0]; simp)
    simpa using this
  have hmain := wordHere_amr w ds hds hdne hw hne
  simp only [hasWord, hmain, Bool.not_false, Bool.true_and, Bool.false_or,
    Bool.not_true, Bool.false_and]
  rw [show isWordChar 'a' = true from by decide,
    show isWordChar 'm' = true from by decide,
    show isWordChar 'r' = true from by decide,
    show isWordChar ' ' = false from by decide]
  simp only [Bool.not_true, Bool.false_and, Bool.false_or]
  rw [hw0]
  exact hasWord_nodigit w0 w' h0 ds false hds

theorem hasWord_robot (w : List Char) (ds : List Char)
    (hds : ds.all Char.isDigit = true) (hdne : ds ≠ [])
    (hwne : w ≠ []) (hw : w.all (fun c => !c.isDigit) = true)
    (hne : w ≠ ['r', 'o', 'b', 'o', 't']) :
    hasWord ('r' :: 'o' :: 'b' :: 'o' :: 't' :: ' ' :: ds) w false = false := by
  obtain ⟨w0, w', hw0⟩ : ∃ w0 w', w = w0 :: w' := by
    cases w with
    | nil => exact absurd rfl hwne
    | cons a b => exact ⟨a, b, rfl⟩
  have h0 : w0.isDigit = false := by
    have := (List.all_eq_true.mp hw) w0 (by rw [hw0]; simp)
    simpa using this
  have hmain := wordHere_robot w ds hds hdne hw hne
  simp only [hasWord, hmain, Bool.not_false, Bool.true_and, Bool.false_or,
    Bool.not_true, Bool.false_and]
  rw [show isWordChar 'r' = true from by decide,
    show isWordChar 'o' = true from by decide,
    show isWordChar 'b' = true from by decide,
    show isWordChar 't' = true from by decide,
    show isWordChar ' ' = false from by decide]
  simp only [Bool.not_true, Bool.false_and, Bool.false_or]
  rw [hw0]
  exact hasWord_nodigit w0 w' h0 ds false hds

theorem testWords_amr (ws : List String) (ds : List Char)
    (hds : ds.all Char.isDigit = true) (hdne : ds ≠ [])
    (hws : ws.all (wordOkay ['a', 'm', 'r']) = true) :
    testWords ws ('a' :: 'm' :: 'r' :: ' ' :: ds) = false := by
  unfold testWords
  rw [List.any_eq_false]
  intro w hw
  have hok := (List.all_eq_true.mp hws) w hw
  unfold wordOkay at hok
  rw [Bool.and_assoc, Bool.and_eq_true, Bool.and_eq_true] at hok
  obtain ⟨h1, h2, h3⟩ := hok
  simp only [Bool.not_eq_true'] at h3
  rw [hasWord_amr w.data ds hds hdne (by simpa using h1) h2
    (by simpa using (beq_eq_false_iff_ne.mp h3))]
  simp

theorem testWords_robot (ws : List String) (ds : List Char)
    (hds : ds.all Char.isDigit = true) (hdne : ds ≠ [])
    (hws : ws.all (wordOkay ['r', 'o', 'b', 'o', 't']) = true) :
    testWords ws ('r' :: 'o' :: 'b' :: 'o' :: 't' :: ' ' :: ds) = false := by
  unfold testWords
  rw [List.any_eq_false]
  intro w hw
  have hok := (List.all_eq_true.mp hws) w hw
  unfold wordOkay at hok
  rw [Bool.and_assoc, Bool.and_eq_true, Bool.and_eq_true] at hok
  obtain ⟨h1, h2, h3⟩ := hok
  simp only [Bool.not_eq_true'] at h3
  rw [hasWord_robot w.data ds hds hdne (by simpa using h1) h2
    (by simpa using (beq_eq_false_iff_ne.mp h3))]
  simp

theorem takeWhile_digits {ds : List Char} (h : ds.all Char.isDigit = true) :
    ds.takeWhile Char.isDigit = ds := by
  rw [List.takeWhile_eq_self_iff]
  intro a ha
  exact (List.all_eq_true.mp h) a ha

theorem dropWhile_ws_digits {ds : List Char} (h : ds.all Char.isDigit = true) :
    ds.dropWhile wsChar = ds := by
  cases ds with
  | nil => rfl
  | cons c cs =>
    have hc : c.isDigit = true := (List.all_eq_true.mp h) c (by simp)
    rw [List.dropWhile_cons_of_neg]
    simp [wsChar_digit hc]

theorem robotIdHere_digits (t : List Char) (ht : t.all Char.isDigit = true) :
    robotIdHere t = none := by
  cases t with
  | nil => rfl
  | cons c cs =>
    have hc : c.isDigit = true := (List.all_eq_true.mp ht) c (by simp)
    unfold robotIdHere
    rw [data_amr, data_robot]
    simp [listStartsWith, digit_beq_false hc (by decide : ('a').isDigit = false),
      digit_beq_false hc (by decide : ('r').isDigit = false)]

theorem numTail_ws_digits (ds : List Char) (hds : ds.all Char.isDigit = true)
    (hne : ds ≠ []) : numTail (' ' :: ds) = some (parseNat ds) := by
  unfold numTail
  rw [List.dropWhile_cons_of_pos (by decide), dropWhile_ws_digits hds, takeWhile_digits hds,
    if_neg (by simp [hne]), List.drop_length]

theorem zoneLetterHere_digits (t : List Char) (ht : t.all Char.isDigit = true) :
    zoneLetterHere t = none := by
  cases t with
  | nil => rfl
  | cons c cs =>
    have hc : c.isDigit = true := (List.all_eq_true.mp ht) c (by simp)
    unfold zoneLetterHere
    rw [data_zone]
    simp [listStartsWith, digit_beq_false hc (by decide : ('z').isDigit = false)]

/-- A bounded scan over `"amr " ++ digits` reduces to the head attempt
plus the all-digit tail. -/
theorem scanBound_amr {α : Type} (f : List Char → Option α) (ds : List Char)
    (h0 : f ('a' :: 'm' :: 'r' :: ' ' :: ds) = none)
    (hdig : ∀ t, t.all Char.isDigit = true → f t = none)
    (hds : ds.all Char.isDigit = true) :
    scanBound f ('a' :: 'm' :: 'r' :: ' ' :: ds) false = none := by
  rw [scanBound, if_neg (by simp), h0]
  rw [scanBound]
  rw [show isWordChar 'a' = true from by decide]
  simp only [if_pos rfl]
  rw [scanBound]
  rw [show isWordChar 'm' = true from by decide]
  simp only [if_pos rfl]
  rw [scanBound]
  rw [show isWordChar 'r' = true from by decide]
  simp only [if_pos rfl]
  rw [show isWordChar ' ' = false from by decide]
  exact scanBound_digits f hdig ds false hds

theorem scanBound_robot {α : Type} (f : List Char → Option α) (ds : List Char)
    (h0 : f ('r' :: 'o' :: 'b' :: 'o' :: 't' :: ' ' :: ds) = none)
    (hdig : ∀ t, t.all Char.isDigit = true → f t = none)
    (hds : ds.all Char.isDigit = true) :
    scanBound f ('r' :: 'o' :: 'b' :: 'o' :: 't' :: ' ' :: ds) false = none := by
  rw [scanBound, if_neg (by simp), h0]
  rw [scanBound]
  rw [show isWordChar 'r' = true from by decide]
  simp only [if_pos rfl]
  rw [scanBound]
  rw [show isWordChar 'o' = true from by decide]
  simp only [if_pos rfl]
  rw [scanBound]
  rw [show isWordChar 'b' = true from by decide]
  simp only [if_pos rfl]
  rw [scanBound]
  rw [show isWordChar 'o' = true from by decide]
  simp only [if_pos rfl]
  rw [scanBound]
  rw [show isWordChar 't' = true from by decide]
  simp only [if_pos rfl]
  rw [show isWordChar ' ' = false from by decide]
  exact scanBound_digits f hdig ds false hds

theorem robotIdMatch_amr (id : Nat) :
    robotIdMatch ('a' :: 'm' :: 'r' :: ' ' :: natDigits id) = some id := by
  unfold robotIdMatch
  rw [scanBound, if_neg (by simp)]
  have hhere : robotIdHere ('a' :: 'm' :: 'r' :: ' ' :: natDigits id) = some id := by
    unfold robotIdHere
    rw [data_amr, data_robot]
    rw [if_pos (show listStartsWith ('a' :: 'm' :: 'r' :: ' ' :: natDigits id)
      ['a', 'm', 'r'] = true from rfl)]
    show numTail (' ' :: natDigits id) = some id
    rw [numTail_ws_digits (natDigits id) (natDigits_all id) (natDigits_ne_nil id),
      parseNat_natDigits]
  rw [hhere]

theorem robotIdMatch_robot (id : Nat) :
    robotIdMatch ('r' :: 'o' :: 'b' :: 'o' :: 't' :: ' ' :: natDigits id) = some id := by
  unfold robotIdMatch
  rw [scanBound, if_neg (by simp)]
  have hhere : robotIdHere ('r' :: 'o' :: 'b' :: 'o' :: 't' :: ' ' :: natDigits id)
      = some id := by
    unfold robotIdHere
    rw [data_amr, data_robot]
    rw [if_neg (by simp [listStartsWith]),
      if_pos (show listStartsWith ('r' :: 'o' :: 'b' :: 'o' :: 't' :: ' ' :: natDigits id)
        ['r', 'o', 'b', 'o', 't'] = true from rfl)]
    show numTail (' ' :: natDigits id) = some id
    rw [numTail_ws_digits (natDigits id) (natDigits_all id) (natDigits_ne_nil id),
      parseNat_natDigits]
  rw [hhere]

theorem zoneLetterMatch_amr (ds : List Char) (hds : ds.all Char.isDigit = true) :
    zoneLetterMatch ('a' :: 'm' :: 'r' :: ' ' :: ds) = none := by
  unfold zoneLetterMatch
  apply scanBound_amr _ _ _ zoneLetterHere_digits hds
  unfold zoneLetterHere
  rw [data_zone]
  simp [listStartsWith]

theorem zoneLetterMatch_robot (ds : List Char) (hds : ds.all Char.isDigit = true) :
    zoneLetterMatch ('r' :: 'o' :: 'b' :: 'o' :: 't' :: ' ' :: ds) = none := by
  unfold zoneLetterMatch
  apply scanBound_robot _ _ _ zoneLetterHere_digits hds
  unfold zoneLetterHere
  rw [data_zone]
  simp [listStartsWith]

/-- The claim's query form `"AMR {id}"`. -/
def amrQuery (id : Nat) : String := "AMR " ++ natStr id

/-- The claim's query form `"robot {id}"`. -/
def robotQuery (id : Nat) : String := "robot " ++ natStr id

theorem normalize_amrQuery (id : Nat) :
    normalize (amrQuery id) = 'a' :: 'm' :: 'r' :: ' ' :: natDigits id := by
  obtain ⟨e, dt, hrev⟩ : ∃ e dt, (natDigits id).reverse = e :: dt := by
    cases h : (natDigits id).reverse with
    | nil =>
      exact absurd (by simpa using congrArg List.reverse h) (natDigits_ne_nil id)
    | cons a b => exact ⟨a, b, rfl⟩
  have he : e.isDigit = true := by
    have hm : e ∈ natDigits id := by
      rw [← List.mem_reverse, hrev]
      simp
    exact (List.all_eq_true.mp (natDigits_all id)) e hm
  have hdata : (amrQuery id).data = 'A' :: 'M' :: 'R' :: ' ' :: natDigits id := by
    unfold amrQuery
    rw [String.data_append]
    rfl
  unfold normalize
  rw [hdata]
  rw [show ('A' :: 'M' :: 'R' :: ' ' :: natDigits id).map Char.toLower
    = 'a' :: 'm' :: 'r' :: ' ' :: ((natDigits id).map Char.toLower) from rfl]
  rw [natDigits_map_toLower]
  rw [List.dropWhile_cons_of_neg (by decide)]
  have hrw : ('a' :: 'm' :: 'r' :: ' ' :: natDigits id).reverse
      = e :: (dt ++ [' ', 'r', 'm', 'a']) := by
    simp [hrev]
  show (List.dropWhile wsChar ('a' :: 'm' :: 'r' :: ' ' :: natDigits id).reverse).reverse
    = 'a' :: 'm' :: 'r' :: ' ' :: natDigits id
  rw [hrw]
  rw [List.dropWhile_cons_of_neg (by simp [wsChar_digit he])]
  rw [← hrw, List.reverse_reverse]

theorem normalize_robotQuery (id : Nat) :
    normalize (robotQuery id) = 'r' :: 'o' :: 'b' :: 'o' :: 't' :: ' ' :: natDigits id := by
  obtain ⟨e, dt, hrev⟩ : ∃ e dt, (natDigits id).reverse = e :: dt := by
    cases h : (natDigits id).reverse with
    | nil =>
      exact absurd (by simpa using congrArg List.reverse h) (natDigits_ne_nil id)
    | cons a b => exact ⟨a, b, rfl⟩
  have he : e.isDigit = true := by
    have hm : e ∈ natDigits id := by
      rw [← List.mem_reverse, hrev]
      simp
    exact (List.all_eq_true.mp (natDigits_all id)) e hm
  have hdata : (robotQuery id).data = 'r' :: 'o' :: 'b' :: 'o' :: 't' :: ' ' :: natDigits id := by
    unfold robotQuery
    rw [String.data_append]
    rfl
  unfold normalize
  rw [hdata]
  rw [show ('r' :: 'o' :: 'b' :: 'o' :: 't' :: ' ' :: natDigits id).map Char.toLower
    = 'r' :: 'o' :: 'b' :: 'o' :: 't' :: ' ' :: ((natDigits id).map Char.toLower) from rfl]
  rw [natDigits_map_toLower]
  rw [List.dropWhile_cons_of_neg (by decide)]
  have hrw : ('r' :: 'o' :: 'b' :: 'o' :: 't' :: ' ' :: natDigits id).reverse
      = e :: (dt ++ [' ', 't', 'o', 'b', 'o', 'r']) := by
    simp [hrev]
  show (List.dropWhile wsChar
      ('r' :: 'o' :: 'b' :: 'o' :: 't' :: ' ' :: natDigits id).reverse).reverse
    = 'r' :: 'o' :: 'b' :: 'o' :: 't' :: ' ' :: natDigits id
  rw [hrw]
  rw [List.dropWhile_cons_of_neg (by simp [wsChar_digit he])]
  rw [← hrw, List.reverse_reverse]

theorem route_amrQuery (id : Nat) :
    route ('a' :: 'm' :: 'r' :: ' ' :: natDigits id) = Route.robot id := by
  have hds := natDigits_all id
  have hdne := natDigits_ne_nil id
  have hzone := zoneLetterMatch_amr (natDigits id) hds
  have hrid := robotIdMatch_amr id
  have hbat : batteryPattern ('a' :: 'm' :: 'r' :: ' ' :: natDigits id) = false :=
    testWords_amr batteryWords _ hds hdne (by decide)
  have heff : efficiencyPattern ('a' :: 'm' :: 'r' :: ' ' :: natDigits id) = false :=
    testWords_amr efficiencyWords _ hds hdne (by decide)
  have hmaint : maintenancePattern ('a' :: 'm' :: 'r' :: ' ' :: natDigits id) = false :=
    testWords_amr maintenanceWords _ hds hdne (by decide)
  have htool : toolPattern ('a' :: 'm' :: 'r' :: ' ' :: natDigits id) = false :=
    testWords_amr toolWords _ hds hdne (by decide)
  have hstat : statusPattern ('a' :: 'm' :: 'r' :: ' ' :: natDigits id) = false :=
    testWords_amr statusWords _ hds hdne (by decide)
  have hprio : priorityPattern ('a' :: 'm' :: 'r' :: ' ' :: natDigits id) = false :=
    testWords_amr priorityWords _ hds hdne (by decide)
  have htraf : trafficPattern ('a' :: 'm' :: 'r' :: ' ' :: natDigits id) = false :=
    testWords_amr trafficWords _ hds hdne (by decide)
  have hcomp : comparePattern ('a' :: 'm' :: 'r' :: ' ' :: natDigits id) = false :=
    testWords_amr compareWords _ hds hdne (by decide)
  have hcx : isComplexQuery ('a' :: 'm' :: 'r' :: ' ' :: natDigits id) = false := by
    unfold isComplexQuery
    rw [show robotIdPattern ('a' :: 'm' :: 'r' :: ' ' :: natDigits id) = true from by
      unfold robotIdPattern
      rw [hrid]
      rfl]
    rw [show zoneIdPattern ('a' :: 'm' :: 'r' :: ' ' :: natDigits id) = false from by
      unfold zoneIdPattern
      rw [hzone]
      rfl]
    rw [hbat, heff, hmaint, htool, hstat, hprio, htraf, hcomp]
    rfl
  unfold route routeRest
  rw [hcx, hrid]
  rfl

theorem route_robotQuery (id : Nat) :
    route ('r' :: 'o' :: 'b' :: 'o' :: 't' :: ' ' :: natDigits id) = Route.robot id := by
  have hds := natDigits_all id
  have hdne := natDigits_ne_nil id
  have hzone := zoneLetterMatch_robot (natDigits id) hds
  have hrid := robotIdMatch_robot id
  have hbat : batteryPattern ('r' :: 'o' :: 'b' :: 'o' :: 't' :: ' ' :: natDigits id) = false :=
    testWords_robot batteryWords _ hds hdne (by decide)
  have heff : efficiencyPattern ('r' :: 'o' :: 'b' :: 'o' :: 't' :: ' ' :: natDigits id)
      = false :=
    testWords_robot efficiencyWords _ hds hdne (by decide)
  have hmaint : maintenancePattern ('r' :: 'o' :: 'b' :: 'o' :: 't' :: ' ' :: natDigits id)
      = false :=
    testWords_robot maintenanceWords _ hds hdne (by decide)
  have htool : toolPattern ('r' :: 'o' :: 'b' :: 'o' :: 't' :: ' ' :: natDigits id) = false :=
    testWords_robot toolWords _ hds hdne (by decide)
  have hstat : statusPattern ('r' :: 'o' :: 'b' :: 'o' :: 't' :: ' ' :: natDigits id) = false :=
    testWords_robot statusWords _ hds hdne (by decide)
  have hprio : priorityPattern ('r' :: 'o' :: 'b' :: 'o' :: 't' :: ' ' :: natDigits id)
      = false :=
    testWords_robot priorityWords _ hds hdne (by decide)
  have htraf : trafficPattern ('r' :: 'o' :: 'b' :: 'o' :: 't' :: ' ' :: natDigits id) = false :=
    testWords_robot trafficWords _ hds hdne (by decide)
  have hcomp : comparePattern ('r' :: 'o' :: 'b' :: 'o' :: 't' :: ' ' :: natDigits id) = false :=
    testWords_robot compareWords _ hds hdne (by decide)
  have hcx : isComplexQuery ('r' :: 'o' :: 'b' :: 'o' :: 't' :: ' ' :: natDigits id)
      = false := by
    unfold isComplexQuery
    rw [show robotIdPattern ('r' :: 'o' :: 'b' :: 'o' :: 't' :: ' ' :: natDigits id)
      = true from by
      unfold robotIdPattern
      rw [hrid]
      rfl]
    rw [show zoneIdPattern ('r' :: 'o' :: 'b' :: 'o' :: 't' :: ' ' :: natDigits id)
      = false from by
      unfold zoneIdPattern
      rw [hzone]
      rfl]
    rw [hbat, heff, hmaint, htool, hstat, hprio, htraf, hcomp]
    rfl
  unfold route routeRest
  rw [hcx, hrid]
  rfl

/-! ### Sample snapshots used by witnesses and counterexamples -/

def sampleRobot1 : Robot :=
  { id := 1, status := "active", zoneId := "Zone A", batteryLevel := 80,
    currentTask := some "Pallet Transport", currentTool := "Forklift Attachment",
    efficiency := 90, coordinates := { x := 5, y := 5 } }

def sampleRobot2 : Robot :=
  { id := 2, status := "idle", zoneId := "Zone B", batteryLevel := 60,
    currentTask := none, currentTool := "Scanner Module", efficiency := 70,
    coordinates := { x := 10, y := 3 } }

def sampleZoneA : Zone :=
  { id := "Zone A", name := "Zone A", priority := "low", robotCount := 1,
    tasksPending := 2, tasksCompleted := 5, efficiency := 80, trafficDensity := "low" }

def sampleZoneB : Zone :=
  { id := "Zone B", name := "Zone B", priority := "high", robotCount := 1,
    tasksPending := 4, tasksCompleted := 6, efficiency := 60, trafficDensity := "medium" }

def sampleData : WarehouseDataType :=
  { robots := [sampleRobot1, sampleRobot2], zones := [sampleZoneA, sampleZoneB],
    activities := [],
    overview := { activeRobots := 1, totalRobots := 2, tasksCompleted := 10,
                  robotEfficiency := 80 } }

/-- A degenerate snapshot with no robots and no zones. -/
def emptyData : WarehouseDataType :=
  { robots := [], zones := [], activities := [],
    overview := { activeRobots := 0, totalRobots := 0, tasksCompleted := 0,
                  robotEfficiency := 0 } }

/-! ### C2 — robot-id query contract -/

/-- C2: for every robot id present in the snapshot, the queries
`"AMR {id}"` and `"robot {id}"` are dispatched to the robot handler and
produce a `type = "robot"` response whose payload is exactly the robot
with that id; for an id not present, both queries produce the fixed
not-found `type = "error"` response with null data (never an exception).
`t` is the wall-clock argument, arbitrary. -/
theorem robot_id_query_contract (d : WarehouseDataType) (t : Nat) (id : Nat) :
    (∀ r, getRobotById d id = some r →
      r.id = id ∧
      (∃ m1 t1, processQuery (amrQuery id) d t =
        (some ⟨m1, ⟨t1, RData.robot r, "robot", none⟩⟩, d)) ∧
      (∃ m2 t2, processQuery (robotQuery id) d t =
        (some ⟨m2, ⟨t2, RData.robot r, "robot", none⟩⟩, d))) ∧
    (getRobotById d id = none →
      processQuery (amrQuery id) d t =
        (some ⟨"I couldn't find AMR " ++ natStr id ++
          " in the system. Please check the ID and try again.",
          ⟨"Robot Not Found", RData.null, "error", none⟩⟩, d) ∧
      processQuery (robotQuery id) d t =
        (some ⟨"I couldn't find AMR " ++ natStr id ++
          " in the system. Please check the ID and try again.",
          ⟨"Robot Not Found", RData.null, "error", none⟩⟩, d)) := by
  have hA : processQuery (amrQuery id) d t
      = handleRobotQuery id ('a' :: 'm' :: 'r' :: ' ' :: natDigits id) d := by
    unfold processQuery
    rw [normalize_amrQuery id]
    unfold dispatchQuery
    rw [route_amrQuery id]
  have hB : processQuery (robotQuery id) d t
      = handleRobotQuery id ('r' :: 'o' :: 'b' :: 'o' :: 't' :: ' ' :: natDigits id) d := by
    unfold processQuery
    rw [normalize_robotQuery id]
    unfold dispatchQuery
    rw [route_robotQuery id]
  constructor
  · intro r hr
    refine ⟨?_, ?_, ?_⟩
    · have hr2 : d.robots.find? (fun r => r.id == id) = some r := hr
      have := List.find?_some hr2
      simpa using this
    · rw [hA]
      unfold handleRobotQuery
      simp only [hr]
      repeat' split
      all_goals exact ⟨_, _, rfl⟩
    · rw [hB]
      unfold handleRobotQuery
      simp only [hr]
      repeat' split
      all_goals exact ⟨_, _, rfl⟩
  · intro hr
    constructor
    · rw [hA]
      unfold handleRobotQuery
      simp only [hr]
    · rw [hB]
      unfold handleRobotQuery
      simp only [hr]

/-- Witness for C2 at the sample snapshot: id 2 is present, id 9 is not. -/
theorem robot_id_query_contract_witness :
    (sampleRobot2.id = 2 ∧
      (∃ m1 t1, processQuery (amrQuery 2) sampleData 0 =
        (some ⟨m1, ⟨t1, RData.robot sampleRobot2, "robot", none⟩⟩, sampleData)) ∧
      (∃ m2 t2, processQuery (robotQuery 2) sampleData 0 =
        (some ⟨m2, ⟨t2, RData.robot sampleRobot2, "robot", none⟩⟩, sampleData))) ∧
    (processQuery (amrQuery 9) sampleData 0 =
      (some ⟨"I couldn't find AMR " ++ natStr 9 ++
        " in the system. Please check the ID and try again.",
        ⟨"Robot Not Found", RData.null, "error", none⟩⟩, sampleData) ∧
     processQuery (robotQuery 9) sampleData 0 =
      (some ⟨"I couldn't find AMR " ++ natStr 9 ++
        " in the system. Please check the ID and try again.",
        ⟨"Robot Not Found", RData.null, "error", none⟩⟩, sampleData)) := by
  constructor
  · exact (robot_id_query_contract sampleData 0 2).1 sampleRobot2 (by decide)
  · exact (robot_id_query_contract sampleData 0 9).2 (by decide)

/-! ### C7 — optimization handler totality -/

theorem default_if_empty_ne_nil (l : List String) (dflt : String) :
    (if l.length = 0 then [dflt] else l) ≠ [] := by
  split
  · simp
  · rename_i h
    intro hc
    rw [hc] at h
    exact h rfl

/-- C7: for every query and every snapshot the optimization handler
returns a response whose `metadata.secondaryData` suggestion list is
non-empty (when no threshold fires it is the single "operating
optimally" message). -/
theorem optimization_secondary_nonempty (q : List Char) (d : WarehouseDataType) :
    ∃ msg l, handleOptimizationQuery q d =
      (some ⟨msg, ⟨"Optimization Recommendations", RData.overview d.overview, "overview",
        some { md0 with secondaryData := some (Secondary.strings l) }⟩⟩, d) ∧ l ≠ [] := by
  unfold handleOptimizationQuery
  exact ⟨_, _, rfl, default_if_empty_ne_nil _ _⟩

/-! ### C6 — count handler totals -/

theorem status_counts_sum (robots : List Robot)
    (h : ∀ r ∈ robots, r.status = "active" ∨ r.status = "idle" ∨
      r.status = "charging" ∨ r.status = "maintenance") :
    (robots.filter (fun r => r.status == "active")).length +
    (robots.filter (fun r => r.status == "idle")).length +
    (robots.filter (fun r => r.status == "charging")).length +
    (robots.filter (fun r => r.status == "maintenance")).length = robots.length := by
  induction robots with
  | nil => rfl
  | cons r rest ih =>
    have hr := h r (by simp)
    have hrest : ∀ x ∈ rest, x.status = "active" ∨ x.status = "idle" ∨
        x.status = "charging" ∨ x.status = "maintenance" :=
      fun x hx => h x (by simp [hx])
    have hsum := ih hrest
    rcases hr with h1 | h1 | h1 | h1 <;>
      simp only [List.filter_cons, h1] <;> simp <;> omega

theorem priority_counts_sum (zones : List Zone)
    (h : ∀ z ∈ zones, z.priority = "high" ∨ z.priority = "medium" ∨ z.priority = "low") :
    (zones.filter (fun z => z.priority == "high")).length +
    (zones.filter (fun z => z.priority == "medium")).length +
    (zones.filter (fun z => z.priority == "low")).length = zones.length := by
  induction zones with
  | nil => rfl
  | cons z rest ih =>
    have hz := h z (by simp)
    have hrest : ∀ x ∈ rest, x.priority = "high" ∨ x.priority = "medium" ∨
        x.priority = "low" :=
      fun x hx => h x (by simp [hx])
    have hsum := ih hrest
    rcases hz with h1 | h1 | h1 <;>
      simp only [List.filter_cons, h1] <;> simp <;> omega

/-- C6: amended-free statement of the count-handler invariant.  When
every robot status is one of the four statuses, the robot answer's four
per-status counts sum to `robots.length`; when every zone priority is
one of the three tiers, the zone answer's three per-priority counts sum
to `zones.length`. -/
theorem count_handler_sums (d : WarehouseDataType)
    (hR : ∀ r ∈ d.robots, r.status = "active" ∨ r.status = "idle" ∨
      r.status = "charging" ∨ r.status = "maintenance")
    (hZ : ∀ z ∈ d.zones, z.priority = "high" ∨ z.priority = "medium" ∨ z.priority = "low") :
    (∀ q, (hasSubstr q "robot".data || hasSubstr q "amr".data) = true →
      ∃ msg cnts, handleCountQuery q d =
        (some ⟨msg, ⟨"Robot Count", RData.overview d.overview, "overview",
          some { md0 with secondaryData := some (Secondary.numRecord cnts) }⟩⟩, d) ∧
        (cnts.map (fun p => p.2)).sum = d.robots.length) ∧
    (∀ q, (hasSubstr q "robot".data || hasSubstr q "amr".data) = false →
      hasSubstr q "zone".data = true →
      ∃ msg cnts, handleCountQuery q d =
        (some ⟨msg, ⟨"Zone Count", RData.zones d.zones, "multi-zone",
          some { md0 with chartData := some cnts }⟩⟩, d) ∧
        (cnts.map (fun p => p.2)).sum = d.zones.length) := by
  constructor
  · intro q hq
    unfold handleCountQuery
    rw [if_pos hq]
    refine ⟨_, _, rfl, ?_⟩
    have := status_counts_sum d.robots hR
    simp only [List.map_cons, List.map_nil, List.sum_cons, List.sum_nil]
    omega
  · intro q hq hz
    unfold handleCountQuery
    rw [if_neg (by simp [hq]), if_pos hz]
    refine ⟨_, _, rfl, ?_⟩
    have := priority_counts_sum d.zones hZ
    simp only [List.map_cons, List.map_nil, List.sum_cons, List.sum_nil]
    omega

/-- Witness for C6 at the sample snapshot and the queries
`"how many robots"` / `"how many zones"`. -/
theorem count_handler_sums_witness :
    (∃ msg cnts, handleCountQuery (normalize "how many robots") sampleData =
      (some ⟨msg, ⟨"Robot Count", RData.overview sampleData.overview, "overview",
        some { md0 with secondaryData := some (Secondary.numRecord cnts) }⟩⟩, sampleData) ∧
      (cnts.map (fun p => p.2)).sum = sampleData.robots.length) ∧
    (∃ msg cnts, handleCountQuery (normalize "how many zones") sampleData =
      (some ⟨msg, ⟨"Zone Count", RData.zones sampleData.zones, "multi-zone",
        some { md0 with chartData := some cnts }⟩⟩, sampleData) ∧
      (cnts.map (fun p => p.2)).sum = sampleData.zones.length) := by
  constructor
  · exact (count_handler_sums sampleData (by decide) (by decide)).1
      (normalize "how many robots") (by decide)
  · exact (count_handler_sums sampleData (by decide) (by decide)).2
      (normalize "how many zones") (by decide) (by decide)

/-! ### C10 — the engine leaves the snapshot unchanged -/

theorem handleRobotQuery_frame (id : Nat) (q : List Char) (d : WarehouseDataType) :
    (handleRobotQuery id q d).2 = d := by
  unfold handleRobotQuery
  try dsimp only
  repeat' split
  all_goals rfl

theorem handleZoneQuery_frame (c : Char) (q : List Char) (d : WarehouseDataType) :
    (handleZoneQuery c q d).2 = d := by
  unfold handleZoneQuery
  try dsimp only
  repeat' split
  all_goals rfl

theorem handleOverviewQuery_frame (q : List Char) (d : WarehouseDataType) :
    (handleOverviewQuery q d).2 = d := rfl

theorem handleEfficiencyQuery_frame (q : List Char) (d : WarehouseDataType) :
    (handleEfficiencyQuery q d).2 = d := by
  unfold handleEfficiencyQuery
  try dsimp only
  repeat' split
  all_goals rfl

theorem handleStatusQuery_frame (q : List Char) (d : WarehouseDataType) :
    (handleStatusQuery q d).2 = d := by
  unfold handleStatusQuery
  try dsimp only
  repeat' split
  all_goals rfl

theorem handleMaintenanceQuery_frame (q : List Char) (d : WarehouseDataType) :
    (handleMaintenanceQuery q d).2 = d := by
  unfold handleMaintenanceQuery
  try dsimp only
  repeat' split
  all_goals rfl

theorem handleBatteryQuery_frame (q : List Char) (d : WarehouseDataType) :
    (handleBatteryQuery q d).2 = d := by
  unfold handleBatteryQuery
  try dsimp only
  repeat' split
  all_goals rfl

theorem handleMultiRobotLocationQuery_frame (q : List Char) (d : WarehouseDataType) :
    (handleMultiRobotLocationQuery q d).2 = d := by
  unfold handleMultiRobotLocationQuery
  try dsimp only
  repeat' split
  all_goals rfl

theorem complexDefault_frame (q : List Char) (d : WarehouseDataType) :
    (complexDefault q d).2 = d := rfl

theorem complexCompareBranch_frame (q : List Char) (d : WarehouseDataType) :
    (complexCompareBranch q d).2 = d := by
  unfold complexCompareBranch
  split
  · rfl
  · exact complexDefault_frame q d

theorem complexToolBranch_frame (q : List Char) (d : WarehouseDataType) :
    (complexToolBranch q d).2 = d := by
  unfold complexToolBranch
  split
  · try dsimp only
    repeat' split
    all_goals rfl
  · exact complexCompareBranch_frame q d

theorem handleComplexQuery_frame (q : List Char) (d : WarehouseDataType) :
    (handleComplexQuery q d).2 = d := by
  unfold handleComplexQuery
  split
  · split
    · exact complexToolBranch_frame q d
    · try dsimp only
      repeat' split
      all_goals rfl
  · exact complexToolBranch_frame q d

theorem deploymentRedistribute_frame (q : List Char) (d : WarehouseDataType) :
    (deploymentRedistribute q d).2 = d := by
  unfold deploymentRedistribute
  try dsimp only
  repeat' split
  all_goals rfl

theorem deploymentGeneral_frame (q : List Char) (d : WarehouseDataType) :
    (deploymentGeneral q d).2 = d := by
  unfold deploymentGeneral
  try dsimp only
  repeat' split
  all_goals rfl

theorem deploymentRest_frame (q : List Char) (d : WarehouseDataType) :
    (deploymentRest q d).2 = d := by
  unfold deploymentRest
  split
  · exact deploymentRedistribute_frame q d
  · exact deploymentGeneral_frame q d

theorem handleDeploymentQuery_frame (q : List Char) (d : WarehouseDataType) :
    (handleDeploymentQuery q d).2 = d := by
  unfold handleDeploymentQuery
  split
  · split
    · exact deploymentRest_frame q d
    · try dsimp only
      repeat' split
      all_goals rfl
  · exact deploymentRest_frame q d

theorem handleOptimizationQuery_frame (q : List Char) (d : WarehouseDataType) :
    (handleOptimizationQuery q d).2 = d := rfl

theorem handleForecastQuery_frame (q : List Char) (d : WarehouseDataType) :
    (handleForecastQuery q d).2 = d := rfl

theorem handleUtilizationQuery_frame (q : List Char) (d : WarehouseDataType) :
    (handleUtilizationQuery q d).2 = d := by
  unfold handleUtilizationQuery
  try dsimp only
  repeat' split
  all_goals rfl

theorem handleSchedulingQuery_frame (q : List Char) (d : WarehouseDataType) (t : Nat) :
    (handleSchedulingQuery q d t).2 = d := rfl

theorem handleAllRobotsQuery_frame (q : List Char) (d : WarehouseDataType) :
    (handleAllRobotsQuery q d).2 = d := by
  unfold handleAllRobotsQuery
  try dsimp only
  repeat' split
  all_goals rfl

theorem handleAllZonesQuery_frame (q : List Char) (d : WarehouseDataType) :
    (handleAllZonesQuery q d).2 = d := by
  unfold handleAllZonesQuery
  try dsimp only
  repeat' split
  all_goals rfl

theorem handleComparisonQuery_frame (q : List Char) (d : WarehouseDataType) :
    (handleComparisonQuery q d).2 = d := by
  unfold handleComparisonQuery
  try dsimp only
  repeat' split
  all_goals rfl

theorem handleCountQuery_frame (q : List Char) (d : WarehouseDataType) :
    (handleCountQuery q d).2 = d := by
  unfold handleCountQuery
  try dsimp only
  repeat' split
  all_goals rfl

theorem handlePriorityQuery_frame (q : List Char) (d : WarehouseDataType) :
    (handlePriorityQuery q d).2 = d := by
  unfold handlePriorityQuery
  try dsimp only
  repeat' split
  all_goals rfl

theorem handleTrafficQuery_frame (q : List Char) (d : WarehouseDataType) :
    (handleTrafficQuery q d).2 = d := by
  unfold handleTrafficQuery
  try dsimp only
  repeat' split
  all_goals rfl

/-- C10: the engine reads but never writes the snapshot — for every
query string, snapshot and wall-clock value, the snapshot coming out of
`processQuery` is exactly the snapshot that went in.  (Every
`Array.sort`/`Array.splice` of the source operates on a spread, filter
or slice copy, which the state-passing embedding makes explicit.) -/
theorem process_query_preserves_snapshot (q : String) (d : WarehouseDataType) (t : Nat) :
    (processQuery q d t).2 = d := by
  unfold processQuery dispatchQuery
  cases route (normalize q) with
  | complex => exact handleComplexQuery_frame _ d
  | robot id => exact handleRobotQuery_frame id _ d
  | zone c => exact handleZoneQuery_frame c _ d
  | deployment => exact handleDeploymentQuery_frame _ d
  | optimization => exact handleOptimizationQuery_frame _ d
  | forecast => exact handleForecastQuery_frame _ d
  | utilization => exact handleUtilizationQuery_frame _ d
  | allRobots => exact handleAllRobotsQuery_frame _ d
  | allZones => exact handleAllZonesQuery_frame _ d
  | comparison => exact handleComparisonQuery_frame _ d
  | counting => exact handleCountQuery_frame _ d
  | priorityR => exact handlePriorityQuery_frame _ d
  | trafficR => exact handleTrafficQuery_frame _ d
  | overviewR => exact handleOverviewQuery_frame _ d
  | efficiencyR => exact handleEfficiencyQuery_frame _ d
  | statusR => exact handleStatusQuery_frame _ d
  | maintenanceR => exact handleMaintenanceQuery_frame _ d
  | batteryR => exact handleBatteryQuery_frame _ d
  | multiLocation => exact handleMultiRobotLocationQuery_frame _ d
  | scheduling => exact handleSchedulingQuery_frame _ d t
  | fallback => rfl

/-! ### C1 — totality of the engine on non-degenerate snapshots -/

theorem jsSort_ne_nil {α : Type} {le : α → α → Bool} {l : List α} (h : l ≠ []) :
    l.jsSort le ≠ [] := by
  intro hc
  apply h
  have hlen := List.length_insertionSort (fun a b => le a b = true) l
  rw [show List.insertionSort (fun a b => le a b = true) l = l.jsSort le from rfl, hc] at hlen
  exact List.eq_nil_of_length_eq_zero hlen.symm

theorem ite_ne_nil {α : Type} {c : Prop} [Decidable c] {a b : List α}
    (ha : a ≠ []) (hb : b ≠ []) : (if c then a else b) ≠ [] := by
  split
  · exact ha
  · exact hb

theorem recSetG_ne_nil {α : Type} (m : List (String × α)) (k : String) (v : α) :
    recSetG m k v ≠ [] := by
  unfold recSetG
  split
  · rename_i hany
    cases m with
    | nil => simp at hany
    | cons p rest => simp
  · simp

theorem toolCounts_aux_ne_nil (robots : List Robot) (acc : List (String × Nat))
    (h : acc ≠ []) :
    robots.foldl
      (fun m r => recSetG m r.currentTool (((recGetG m r.currentTool).getD 0) + 1)) acc
      ≠ [] := by
  induction robots generalizing acc with
  | nil => exact h
  | cons r rest ih => exact ih _ (recSetG_ne_nil _ _ _)

theorem toolCounts_ne_nil {robots : List Robot} (h : robots ≠ []) :
    toolCounts robots ≠ [] := by
  cases robots with
  | nil => exact absurd rfl h
  | cons r rest =>
    unfold toolCounts
    rw [List.foldl_cons]
    exact toolCounts_aux_ne_nil rest _ (recSetG_ne_nil _ _ _)

theorem handleRobotQuery_isSome (id : Nat) (q : List Char) (d : WarehouseDataType) :
    (handleRobotQuery id q d).1.isSome = true := by
  unfold handleRobotQuery
  try dsimp only
  repeat' split
  all_goals rfl

theorem handleZoneQuery_isSome (c : Char) (q : List Char) (d : WarehouseDataType) :
    (handleZoneQuery c q d).1.isSome = true := by
  unfold handleZoneQuery
  try dsimp only
  repeat' split
  all_goals rfl

theorem handleOverviewQuery_isSome (q : List Char) (d : WarehouseDataType) :
    (handleOverviewQuery q d).1.isSome = true := rfl

theorem handleStatusQuery_isSome (q : List Char) (d : WarehouseDataType) :
    (handleStatusQuery q d).1.isSome = true := by
  unfold handleStatusQuery
  try dsimp only
  repeat' split
  all_goals rfl

theorem handleMaintenanceQuery_isSome (q : List Char) (d : WarehouseDataType) :
    (handleMaintenanceQuery q d).1.isSome = true := by
  unfold handleMaintenanceQuery
  try dsimp only
  repeat' split
  all_goals rfl

theorem handleCountQuery_isSome (q : List Char) (d : WarehouseDataType) :
    (handleCountQuery q d).1.isSome = true := by
  unfold handleCountQuery
  try dsimp only
  repeat' split
  all_goals rfl

theorem handlePriorityQuery_isSome (q : List Char) (d : WarehouseDataType) :
    (handlePriorityQuery q d).1.isSome = true := by
  unfold handlePriorityQuery
  try dsimp only
  repeat' split
  all_goals rfl

theorem handleTrafficQuery_isSome (q : List Char) (d : WarehouseDataType) :
    (handleTrafficQuery q d).1.isSome = true := by
  unfold handleTrafficQuery
  try dsimp only
  repeat' split
  all_goals rfl

theorem handleAllRobotsQuery_isSome (q : List Char) (d : WarehouseDataType) :
    (handleAllRobotsQuery q d).1.isSome = true := by
  unfold handleAllRobotsQuery
  try dsimp only
  repeat' split
  all_goals rfl

theorem handleAllZonesQuery_isSome (q : List Char) (d : WarehouseDataType) :
    (handleAllZonesQuery q d).1.isSome = true := by
  unfold handleAllZonesQuery
  try dsimp only
  repeat' split
  all_goals rfl

theorem handleForecastQuery_isSome (q : List Char) (d : WarehouseDataType) :
    (handleForecastQuery q d).1.isSome = true := rfl

theorem handleOptimizationQuery_isSome (q : List Char) (d : WarehouseDataType) :
    (handleOptimizationQuery q d).1.isSome = true := rfl

theorem handleSchedulingQuery_isSome (q : List Char) (d : WarehouseDataType) (t : Nat) :
    (handleSchedulingQuery q d t).1.isSome = true := rfl

theorem handleEfficiencyQuery_isSome (q : List Char) (d : WarehouseDataType)
    (hR : d.robots ≠ []) (hZ : d.zones ≠ []) :
    (handleEfficiencyQuery q d).1.isSome = true := by
  unfold handleEfficiencyQuery
  try dsimp only
  repeat' split
  all_goals first
  | rfl
  | (rename_i hnil; exact absurd hnil (jsSort_ne_nil hR))
  | (rename_i hnil; exact absurd hnil (jsSort_ne_nil hZ))

theorem handleBatteryQuery_isSome (q : List Char) (d : WarehouseDataType)
    (hR : d.robots ≠ []) :
    (handleBatteryQuery q d).1.isSome = true := by
  unfold handleBatteryQuery
  try dsimp only
  repeat' split
  all_goals first
  | rfl
  | (rename_i hnil; exact absurd hnil (jsSort_ne_nil hR))

theorem handleMultiRobotLocationQuery_isSome (q : List Char) (d : WarehouseDataType)
    (hZ : d.zones ≠ []) :
    (handleMultiRobotLocationQuery q d).1.isSome = true := by
  unfold handleMultiRobotLocationQuery
  try dsimp only
  repeat' split
  all_goals first
  | rfl
  | (rename_i hnil
     refine absurd hnil (jsSort_ne_nil ?_)
     intro hm
     exact hZ (by simpa using hm))

theorem handleUtilizationQuery_isSome (q : List Char) (d : WarehouseDataType)
    (hR : d.robots ≠ []) (hZ : d.zones ≠ []) :
    (handleUtilizationQuery q d).1.isSome = true := by
  unfold handleUtilizationQuery
  try dsimp only
  repeat' split
  all_goals first
  | rfl
  | (rename_i hnil
     refine absurd hnil (jsSort_ne_nil ?_)
     intro hm
     exact hZ (by simpa using hm))
  | (rename_i hnil; exact absurd hnil (jsSort_ne_nil (toolCounts_ne_nil hR)))

theorem handleComparisonQuery_isSome (q : List Char) (d : WarehouseDataType)
    (hR : d.robots ≠ []) (hZ : d.zones ≠ []) :
    (handleComparisonQuery q d).1.isSome = true := by
  unfold handleComparisonQuery
  try dsimp only
  repeat' split
  all_goals first
  | rfl
  | (rename_i hnil; exact absurd hnil (jsSort_ne_nil hR))
  | (rename_i hnil; exact absurd hnil (jsSort_ne_nil hZ))
  | (rename_i hnil; exact absurd hnil hR)
  | (rename_i hnil; exact absurd hnil hZ)
  | (rename_i hnil
     exact absurd hnil
       (ite_ne_nil (jsSort_ne_nil hR) (ite_ne_nil (jsSort_ne_nil hR) hR)))
  | (rename_i hnil
     exact absurd hnil (ite_ne_nil (jsSort_ne_nil hZ) hZ))

theorem complexDefault_isSome (q : List Char) (d : WarehouseDataType) :
    (complexDefault q d).1.isSome = true := rfl

theorem complexCompareBranch_isSome (q : List Char) (d : WarehouseDataType) :
    (complexCompareBranch q d).1.isSome = true := by
  unfold complexCompareBranch
  split
  · rfl
  · exact complexDefault_isSome q d

theorem complexToolBranch_isSome (q : List Char) (d : WarehouseDataType) :
    (complexToolBranch q d).1.isSome = true := by
  unfold complexToolBranch
  split
  · try dsimp only
    repeat' split
    all_goals rfl
  · exact complexCompareBranch_isSome q d

theorem handleComplexQuery_isSome (q : List Char) (d : WarehouseDataType) :
    (handleComplexQuery q d).1.isSome = true := by
  unfold handleComplexQuery
  split
  · split
    · exact complexToolBranch_isSome q d
    · try dsimp only
      repeat' split
      all_goals first
      | rfl
      | (rename_i hnil
         exact absurd hnil (jsSort_ne_nil (by simp_all)))
  · exact complexToolBranch_isSome q d

theorem deploymentRedistribute_isSome (q : List Char) (d : WarehouseDataType) :
    (deploymentRedistribute q d).1.isSome = true := by
  unfold deploymentRedistribute
  try dsimp only
  repeat' split
  all_goals rfl

theorem deploymentGeneral_isSome (q : List Char) (d : WarehouseDataType) :
    (deploymentGeneral q d).1.isSome = true := by
  unfold deploymentGeneral
  try dsimp only
  repeat' split
  all_goals rfl

theorem deploymentRest_isSome (q : List Char) (d : WarehouseDataType) :
    (deploymentRest q d).1.isSome = true := by
  unfold deploymentRest
  split
  · exact deploymentRedistribute_isSome q d
  · exact deploymentGeneral_isSome q d

theorem handleDeploymentQuery_isSome (q : List Char) (d : WarehouseDataType) :
    (handleDeploymentQuery q d).1.isSome = true := by
  unfold handleDeploymentQuery
  split
  · split
    · exact deploymentRest_isSome q d
    · try dsimp only
      repeat' split
      all_goals rfl
  · exact deploymentRest_isSome q d

/-- C1 (amended): on every snapshot with at least one robot and at least
one zone, `processQuery` returns a `{message, response}` value for every
query string and never a thrown exception.  (On an empty snapshot some
handlers index `[0]` into an empty sorted array; see the counterexample.) -/
theorem process_query_total (q : String) (d : WarehouseDataType) (t : Nat)
    (hR : d.robots ≠ []) (hZ : d.zones ≠ []) :
    (processQuery q d t).1.isSome = true := by
  unfold processQuery dispatchQuery
  cases route (normalize q) with
  | complex => exact handleComplexQuery_isSome _ d
  | robot id => exact handleRobotQuery_isSome id _ d
  | zone c => exact handleZoneQuery_isSome c _ d
  | deployment => exact handleDeploymentQuery_isSome _ d
  | optimization => exact handleOptimizationQuery_isSome _ d
  | forecast => exact handleForecastQuery_isSome _ d
  | utilization => exact handleUtilizationQuery_isSome _ d hR hZ
  | allRobots => exact handleAllRobotsQuery_isSome _ d
  | allZones => exact handleAllZonesQuery_isSome _ d
  | comparison => exact handleComparisonQuery_isSome _ d hR hZ
  | counting => exact handleCountQuery_isSome _ d
  | priorityR => exact handlePriorityQuery_isSome _ d
  | trafficR => exact handleTrafficQuery_isSome _ d
  | overviewR => exact handleOverviewQuery_isSome _ d
  | efficiencyR => exact handleEfficiencyQuery_isSome _ d hR hZ
  | statusR => exact handleStatusQuery_isSome _ d
  | maintenanceR => exact handleMaintenanceQuery_isSome _ d
  | batteryR => exact handleBatteryQuery_isSome _ d hR
  | multiLocation => exact handleMultiRobotLocationQuery_isSome _ d hZ
  | scheduling => exact handleSchedulingQuery_isSome _ d t
  | fallback => rfl

/-- Witness for C1 at the sample snapshot (an unrecognized query). -/
theorem process_query_total_witness :
    (processQuery "hello there" sampleData 0).1.isSome = true :=
  process_query_total "hello there" sampleData 0 (by decide) (by decide)

/-- Counterexample to C1 as frozen: on the empty snapshot the plain
query `"efficiency"` reaches the general branch of the efficiency
handler, which reads `sortedZones[0].name` / `sortedRobots[0].id` of
empty arrays — a thrown `TypeError`, modeled as `none`; the engine does
not return a `QueryResponse` for every query and snapshot. -/
theorem process_query_throws_on_empty :
    (processQuery "efficiency" emptyData 0).1 = none := by decide

/-! ### C4 — determinism / time independence of the engine -/

/-- C4 (amended): the engine is deterministic and time-independent for
every query that does not route to the scheduling handler: two calls
with the same query and the same snapshot yield identical output
regardless of the wall clock.  (The scheduling handler embeds
`new Date()` wall-clock times in its output; see the counterexample.) -/
theorem process_query_time_independent (q : String) (d : WarehouseDataType)
    (t1 t2 : Nat) (h : route (normalize q) ≠ Route.scheduling) :
    processQuery q d t1 = processQuery q d t2 := by
  unfold processQuery dispatchQuery
  cases hr : route (normalize q) <;> first | rfl | exact absurd hr h

/-- Witness for C4 at a non-scheduling query and two different clocks. -/
theorem process_query_time_independent_witness :
    processQuery "hello there" sampleData 0 = processQuery "hello there" sampleData 47 :=
  process_query_time_independent "hello there" sampleData 0 47 (by decide)

/-- Counterexample to C4 as frozen: the query `"schedule"` reaches
`handleSchedulingQuery`, which stamps each schedule line with the
current wall-clock time (`new Date()`), so two calls with the same
query and the same snapshot one minute apart return different
messages — the engine is not a pure function of (query, snapshot). -/
theorem process_query_time_dependent :
    (processQuery "schedule" sampleData 0).1.map (fun r => r.message) ≠
      (processQuery "schedule" sampleData 1).1.map (fun r => r.message) := by decide

/-! ### C5 — the two-robot comparison query -/

/-- C5 (amended): the query `"compare AMR 1 and AMR 2"` never reaches the
comparison handler — the robot-id extractor fires first on `"amr 1"` — so
on every snapshot containing robot 1 the engine returns the single-robot
information response for robot 1: `type = "robot"`, payload robot 1 and
no metadata (hence no `chartData`).  `t` is the wall clock, arbitrary. -/
theorem compare_two_amrs_routes_to_robot (d : WarehouseDataType) (t : Nat)
    (r : Robot) (h : getRobotById d 1 = some r) :
    ∃ m, processQuery "compare AMR 1 and AMR 2" d t =
      (some ⟨m, ⟨"AMR " ++ padTwo 1 ++ " Information", RData.robot r, "robot", none⟩⟩, d) := by
  have hroute : dispatchQuery (normalize "compare AMR 1 and AMR 2") d t
      = handleRobotQuery 1 (normalize "compare AMR 1 and AMR 2") d := by
    unfold dispatchQuery
    rw [show route (normalize "compare AMR 1 and AMR 2") = Route.robot 1 from by decide]
  show ∃ m, dispatchQuery (normalize "compare AMR 1 and AMR 2") d t = _
  rw [hroute]
  unfold handleRobotQuery
  simp only [h,
    show locationPattern (normalize "compare AMR 1 and AMR 2") = false from by decide,
    show statusPattern (normalize "compare AMR 1 and AMR 2") = false from by decide,
    show batteryPattern (normalize "compare AMR 1 and AMR 2") = false from by decide,
    show toolPattern (normalize "compare AMR 1 and AMR 2") = false from by decide,
    Bool.false_eq_true, if_false]
  exact ⟨_, rfl⟩

/-- Witness for C5 at the sample snapshot, in which robot 1 has
efficiency 90 and robot 2 has efficiency 70 (the claim's scenario). -/
theorem compare_two_amrs_routes_to_robot_witness :
    ∃ m, processQuery "compare AMR 1 and AMR 2" sampleData 0 =
      (some ⟨m, ⟨"AMR " ++ padTwo 1 ++ " Information", RData.robot sampleRobot1,
        "robot", none⟩⟩, sampleData) :=
  compare_two_amrs_routes_to_robot sampleData 0 sampleRobot1 (by decide)

/-- Counterexample to C5 as frozen: on the claim's own scenario (robot 1
efficiency 90, robot 2 efficiency 70) the response to
`"compare AMR 1 and AMR 2"` has `type = "robot"` and carries no metadata
at all — in particular no `chartData` with the two efficiencies. -/
theorem compare_two_amrs_no_comparison_response :
    (processQuery "compare AMR 1 and AMR 2" sampleData 0).1.map
        (fun r => (r.response.type, r.response.metadata.isSome)) =
      some ("robot", false) := by decide

/-! ### C9 — zero-padded robot display ids -/

/-- C9 (amended): the single-robot handler zero-pads the display id to
width 2: whenever the queried robot exists, both the message and the
title of its response begin with `"AMR "` followed by the id padded with
`padStart(2, '0')`.  (Other handlers interpolate the raw id; see the
counterexample.) -/
theorem robot_handler_pads_display_id (id : Nat) (q : List Char) (d : WarehouseDataType)
    (r : Robot) (h : getRobotById d id = some r) :
    ∃ res, (handleRobotQuery id q d).1 = some res ∧
      (∃ rest, res.message = "AMR " ++ padTwo id ++ rest) ∧
      (∃ rest, res.response.title = "AMR " ++ padTwo id ++ rest) := by
  unfold handleRobotQuery
  simp only [h]
  repeat' split
  all_goals
    refine ⟨_, rfl, ?_, ?_⟩ <;>
      (simp only [String.append_assoc]
       exact ⟨_, rfl⟩)

/-- Witness for C9 at the sample snapshot: the response for robot 1
begins with `"AMR 01"`. -/
theorem robot_handler_pads_display_id_witness :
    ∃ res, (handleRobotQuery 1 (normalize "amr 1") sampleData).1 = some res ∧
      (∃ rest, res.message = "AMR " ++ padTwo 1 ++ rest) ∧
      (∃ rest, res.response.title = "AMR " ++ padTwo 1 ++ rest) :=
  robot_handler_pads_display_id 1 (normalize "amr 1") sampleData sampleRobot1 (by decide)

/-- Counterexample to C9 as frozen: the efficiency handler interpolates
the raw numeric id — for the sample snapshot, whose most efficient robot
has id 1, the reply to `"which robot has the best efficiency"` says
`"AMR 1 "` and contains no zero-padded `"AMR 01"` anywhere. -/
theorem efficiency_message_unpadded_id :
    (processQuery "which robot has the best efficiency" sampleData 0).1.map
        (fun r => (hasSubstr r.message.data "AMR 01".data,
                   hasSubstr r.message.data "AMR 1 ".data)) = some (false, true) := by decide

/-! ### C3 — the complexity pre-check -/

/-- The count of distinct detector families firing as the spec words it:
its family list (battery, efficiency, maintenance, status, location, tool,
comparison, priority, traffic, deployment, redistribution, optimization,
forecast, trend, utilization, capacity, schedule, count, idle/active,
highest/lowest, all-robots/all-zones), excluding the plain
robot-id/zone-id extraction.  Written from the spec's words, for
comparison with the code's `isComplexQuery`. -/
def specFamilyCount (q : List Char) : Nat :=
  (if batteryPattern q then 1 else 0) + (if efficiencyPattern q then 1 else 0) +
  (if maintenancePattern q then 1 else 0) + (if statusPattern q then 1 else 0) +
  (if locationPattern q then 1 else 0) + (if toolPattern q then 1 else 0) +
  (if comparePattern q then 1 else 0) + (if priorityPattern q then 1 else 0) +
  (if trafficPattern q then 1 else 0) + (if deploymentPattern q then 1 else 0) +
  (if redistributePattern q then 1 else 0) + (if optimizePattern q then 1 else 0) +
  (if forecastPattern q then 1 else 0) + (if trendPattern q then 1 else 0) +
  (if utilizationPattern q then 1 else 0) + (if capacityPattern q then 1 else 0) +
  (if schedulePattern q then 1 else 0) + (if countPattern q then 1 else 0) +
  (if idlePattern q || activePattern q then 1 else 0) +
  (if highestPattern q || lowestPattern q then 1 else 0) +
  (if allRobotsPattern q || allZonesPattern q then 1 else 0)

theorem ite_ne {α : Type} {c : Prop} [inst : Decidable c] {a b x : α}
    (ha : a ≠ x) (hb : b ≠ x) : (if c then a else b) ≠ x := by
  split
  · exact ha
  · exact hb

set_option maxHeartbeats 1600000 in
theorem routeRest_ne_complex (nq : List Char) : routeRest nq ≠ Route.complex := by
  unfold routeRest
  cases robotIdMatch nq with
  | some id => exact fun h => Route.noConfusion h
  | none =>
    cases zoneLetterMatch nq with
    | some c => exact fun h => Route.noConfusion h
    | none =>
      exact ite_ne (fun h => Route.noConfusion h)
        (ite_ne (fun h => Route.noConfusion h)
        (ite_ne (fun h => Route.noConfusion h)
        (ite_ne (fun h => Route.noConfusion h)
        (ite_ne (fun h => Route.noConfusion h)
        (ite_ne (fun h => Route.noConfusion h)
        (ite_ne (fun h => Route.noConfusion h)
        (ite_ne (fun h => Route.noConfusion h)
        (ite_ne (fun h => Route.noConfusion h)
        (ite_ne (fun h => Route.noConfusion h)
        (ite_ne (fun h => Route.noConfusion h)
        (ite_ne (fun h => Route.noConfusion h)
        (ite_ne (fun h => Route.noConfusion h)
        (ite_ne (fun h => Route.noConfusion h)
        (ite_ne (fun h => Route.noConfusion h)
        (ite_ne (fun h => Route.noConfusion h)
        (ite_ne (fun h => Route.noConfusion h) (fun h => Route.noConfusion h)))))))))))))))))

/-- C3 (amended): the engine routes a normalized query to the complex
handler — before any single-intent handler — exactly when at least three
of the TEN indicator patterns of `isComplexQuery` fire, a list that DOES
include the plain robot-id and zone-id extractions and omits eleven of
the spec's detector families (deployment, redistribution, optimization,
forecast, trend, utilization, capacity, schedule, count, idle/active,
highest/lowest, all-robots/all-zones are not counted). -/
theorem complex_routing_counts_code_indicators (nq : List Char) :
    route nq = Route.complex ↔
      3 ≤ (if robotIdPattern nq then 1 else 0) + (if zoneIdPattern nq then 1 else 0) +
          (if batteryPattern nq then 1 else 0) + (if efficiencyPattern nq then 1 else 0) +
          (if maintenancePattern nq then 1 else 0) + (if toolPattern nq then 1 else 0) +
          (if statusPattern nq then 1 else 0) + (if priorityPattern nq then 1 else 0) +
          (if trafficPattern nq then 1 else 0) + (if comparePattern nq then 1 else 0) := by
  have hiff : isComplexQuery nq = true ↔
      3 ≤ (if robotIdPattern nq then 1 else 0) + (if zoneIdPattern nq then 1 else 0) +
          (if batteryPattern nq then 1 else 0) + (if efficiencyPattern nq then 1 else 0) +
          (if maintenancePattern nq then 1 else 0) + (if toolPattern nq then 1 else 0) +
          (if statusPattern nq then 1 else 0) + (if priorityPattern nq then 1 else 0) +
          (if trafficPattern nq then 1 else 0) + (if comparePattern nq then 1 else 0) := by
    unfold isComplexQuery
    simp
  rw [← hiff]
  constructor
  · intro h
    by_contra hc
    replace hc : isComplexQuery nq = false := by simpa using hc
    unfold route at h
    rw [hc] at h
    simp only [Bool.false_eq_true, if_false] at h
    exact absurd h (routeRest_ne_complex nq)
  · intro h
    unfold route
    rw [h, if_pos rfl]

/-- Counterexample to C3 as frozen: `"forecast the trend in utilization"`
fires at least three of the spec's detector families (forecast, trend,
utilization), none of which is the robot-id/zone-id extraction, yet the
engine routes it to the single-intent forecast handler, not to the
complex handler. -/
theorem multi_family_query_single_intent :
    3 ≤ specFamilyCount (normalize "forecast the trend in utilization") ∧
      route (normalize "forecast the trend in utilization") = Route.forecast := by decide

/-! ### C8 — deployment candidate selection -/

theorem deployLe_total (a b : Robot) : deployLe a b = true ∨ deployLe b a = true := by
  unfold deployLe
  split_ifs <;> simp_all <;> omega

theorem deployLe_trans {a b c : Robot} (h1 : deployLe a b = true) (h2 : deployLe b c = true) :
    deployLe a c = true := by
  unfold deployLe at h1 h2 ⊢
  split_ifs at h1 h2 ⊢ <;> simp_all <;> omega

/-- C8 (amended): for every query the deployment handler resolves to an
existing target zone, either there are no candidates (error response) or
it returns at most the requested count (default 2) of robots, each of
which is idle OR (non-maintenance AND outside the target zone AND not
stationed in a high-priority zone), ordered idle-first then by descending
battery.  Note the disjunction: an idle robot is a candidate even when it
is stationed in a high-priority zone — the high-priority exclusion only
restricts non-idle robots (see the counterexample). -/
theorem deployment_zone_selection_contract (q : List Char) (d : WarehouseDataType)
    (letter : Char) (zone : Zone)
    (hm : zoneLetterMatch q = some letter)
    (hz : getZoneById d ("Zone " ++ String.mk [letter.toUpper]) = some zone)
    (hne : d.robots.filter (fun r =>
        r.status == "idle" ||
          (!(r.status == "maintenance") &&
            !(r.zoneId == "Zone " ++ String.mk [letter.toUpper]) &&
            !(match getZoneById d r.zoneId with
              | some z => z.priority == "high"
              | none => false))) ≠ []) :
    ∃ res sel, (handleDeploymentQuery q d).1 = some res ∧
      res.response.type = "multi-robot" ∧
      res.response.data = RData.robots sel ∧
      sel.length ≤ (countRobotsMatch q).getD 2 ∧
      (∀ r ∈ sel,
        r.status = "idle" ∨
          (r.status ≠ "maintenance" ∧ r.zoneId ≠ "Zone " ++ String.mk [letter.toUpper] ∧
            ∀ z, getZoneById d r.zoneId = some z → z.priority ≠ "high")) ∧
      List.Pairwise (fun a b => deployLe a b = true) sel := by
  have hpat : zoneIdPattern q = true := by
    unfold zoneIdPattern
    rw [hm]
    rfl
  unfold handleDeploymentQuery
  rw [hpat, if_pos rfl]
  simp only [hm]
  try dsimp only
  simp only [hz]
  try dsimp only
  rw [if_neg (fun hlen => hne (List.eq_nil_of_length_eq_zero hlen))]
  refine ⟨_, _, rfl, rfl, rfl, ?_, ?_, ?_⟩
  · exact List.length_take_le _ _
  · intro r hr
    have hr2 : r ∈ List.jsSort (d.robots.filter _) deployLe := List.mem_of_mem_take hr
    have hr3 : r ∈ d.robots.filter _ :=
      (List.perm_insertionSort (fun a b => deployLe a b = true) _).mem_iff.mp hr2
    have hpred := (List.mem_filter.mp hr3).2
    simp only [Bool.or_eq_true, Bool.and_eq_true, Bool.not_eq_true', beq_iff_eq,
      beq_eq_false_iff_ne] at hpred
    rcases hpred with h1 | ⟨⟨h2, h3⟩, h4⟩
    · exact Or.inl h1
    · refine Or.inr ⟨h2, h3, fun z hz' => ?_⟩
      rw [hz'] at h4
      exact beq_eq_false_iff_ne.mp (by simpa using h4)
  · haveI : IsTotal Robot (fun a b => deployLe a b = true) := ⟨deployLe_total⟩
    haveI : IsTrans Robot (fun a b => deployLe a b = true) :=
      ⟨fun _ _ _ h1 h2 => deployLe_trans h1 h2⟩
    exact List.Pairwise.sublist (List.take_sublist _ _)
      (List.sorted_insertionSort (fun a b => deployLe a b = true) _)

/-- A snapshot for C8: robot 5 is idle but stationed in the
high-priority Zone B; Zone A is the (low-priority) deployment target. -/
def rIdleHigh : Robot :=
  { id := 5, status := "idle", zoneId := "Zone B", batteryLevel := 90,
    currentTask := none, currentTool := "Gripper Arm", efficiency := 85,
    coordinates := { x := 40, y := 10 } }

def cexDeployData : WarehouseDataType :=
  { robots := [rIdleHigh], zones := [sampleZoneA, sampleZoneB], activities := [],
    overview := { activeRobots := 0, totalRobots := 1, tasksCompleted := 0,
                  robotEfficiency := 85 } }

/-- Witness for C8 at the counterexample snapshot. -/
theorem deployment_zone_selection_contract_witness :
    ∃ res sel, (handleDeploymentQuery (normalize "deploy robots to zone a")
        cexDeployData).1 = some res ∧
      res.response.type = "multi-robot" ∧
      res.response.data = RData.robots sel ∧
      sel.length ≤ (countRobotsMatch (normalize "deploy robots to zone a")).getD 2 ∧
      (∀ r ∈ sel,
        r.status = "idle" ∨
          (r.status ≠ "maintenance" ∧ r.zoneId ≠ "Zone " ++ String.mk ['a'.toUpper] ∧
            ∀ z, getZoneById cexDeployData r.zoneId = some z → z.priority ≠ "high")) ∧
      List.Pairwise (fun a b => deployLe a b = true) sel :=
  deployment_zone_selection_contract (normalize "deploy robots to zone a") cexDeployData
    'a' sampleZoneA (by decide) (by decide) (by decide)

/-- Counterexample to C8 as frozen: robot 5 is stationed in Zone B,
whose priority is `"high"`, yet — because it is idle — the handler
deploys it to Zone A; the claimed exclusion of robots already in
high-priority zones does not hold for idle robots. -/
theorem deployment_selects_idle_robot_from_high_priority_zone :
    (handleDeploymentQuery (normalize "deploy robots to zone a") cexDeployData).1.map
        (fun res => match res.response.data with
          | RData.robots l => l.map (fun r => r.id)
          | _ => []) = some [5] ∧
      (getZoneById cexDeployData rIdleHigh.zoneId).map (fun z => z.priority) =
        some "high" := by decide

end Delph
